import Mathlib

/-! NearbySessionManager: session teardown and command dispatch.

A shallow embedding of `src/uwbapps/NearbySessionManager.cpp`.

* The manager object (session table, sentinel record, event hooks) is the
  structure `NearbySessionManager`; the table is kept as the list of its
  entries `sessions[0 .. numSessions)`.
* The capacity `maxSessions` and the constructors of `NearbySession` come from
  headers outside `src/` and are parameters (`Decls`); `deleteSession`, also
  defined there, is modelled from the spec.
* Everything the code calls but does not define (the radio, the clock, the
  BLE channels, the user hooks, the semaphore) is observed through an effect
  trace of `Event`s; the values such calls hand back come from an `Env`,
  indexed by how many calls of that kind were made before. Each such call is
  taken to return; a user hook is recorded as an event and its body is not
  part of the model.
* `stop()`, `deInit()` and `reset()` answer with a status and leave the
  record's `sessionState` to the caller; the start and configuration-build
  methods may rewrite the record they are called on.
* `UWBHAL.Log_*` and `Serial.print` are diagnostics and leave no event.
* The `while` loop of `handleStopSession` is iterated with fuel; the
  theorems show that three units always suffice.
* Reading through a null pointer ends a run with `Fault.nullDereference`.
-/

namespace Uwbapps

/-! ## Data model -/

/-- Modelled from the spec: `uwb::Status` is declared in a header outside
`src/`; the spec lists `SUCCESS`, `SESSION_NOT_EXIST`, `FAILED` and leaves the
rest open, kept here as `other code`. -/
inductive Status where
  | SUCCESS
  | SESSION_NOT_EXIST
  | FAILED
  | other (code : Nat)
  deriving DecidableEq, Repr

/-- Modelled from the spec: the session state enumeration of the absent
`NearbySession.hpp`, with the three enumerators the source names. A C++
enumeration object can hold a value that is none of its enumerators, kept as
`other v`. -/
inductive SessionState where
  | notCreated
  | notStarted
  | Started
  | other (v : Nat)
  deriving DecidableEq, Repr

/-- Modelled from the spec: the device type enumeration of the absent
`NearbySession.hpp`; the source names the enumerators `Android` and `iOS`. -/
inductive DeviceType where
  | Android
  | iOS
  | other (v : Nat)
  deriving DecidableEq, Repr

/-- A `BLEDevice`, known to this code only through `address()`. -/
structure BLEDevice where
  address : Nat
  deriving DecidableEq, Repr

/-- Modelled from the spec: the fields of the absent class `NearbySession`
that `NearbySessionManager.cpp` reads or writes through its accessors.
`config` is the buffer `config()` points to. -/
structure NearbySession where
  sessionID : Nat
  sessionType : Nat
  bleAddress : Nat
  sessionState : SessionState
  deviceType : DeviceType
  sessionHandle : Nat
  config : List Nat
  configLen : Nat
  shouldUpdateAccessory : Bool
  deriving DecidableEq, Repr

/-- The two BLE characteristics the code writes to. -/
inductive Channel where
  | txCharacteristic
  | accessoryConfigDataChar
  deriving DecidableEq, Repr

/-- One observable call made by the code, in program order. For
`writeValue(value, length)` the event keeps both arguments as passed: the bytes
behind the pointer `value` and the integer `length`. -/
inductive Event where
  | semaphoreTake
  | semaphoreGive
  | millis
  | stop
  | deInit
  | reset
  | startAndroid
  | startIOS
  | configIOS
  | configAndroid
  | sessionStopped (dev : BLEDevice)
  | writeValue (ch : Channel) (value : List Nat) (length : Int)
  | clientConnected (dev : BLEDevice)
  | clientDisconnected (dev : BLEDevice)
  deriving DecidableEq, Repr

/-- How many calls of each external kind have been made so far. -/
structure Calls where
  millis : Nat
  stop : Nat
  deInit : Nat
  reset : Nat
  startAndroid : Nat
  startIOS : Nat
  configIOS : Nat
  configAndroid : Nat
  deriving DecidableEq, Repr

/-- The singleton manager object together with the history of its external
calls. `sessions` holds the entries `sessions[0 .. numSessions)` of the table;
a hook field is `true` when the function pointer is not `nullptr`. -/
structure NearbySessionManager where
  sessions : List NearbySession
  emptySession : NearbySession
  clientConnectionHandler : Bool
  clientDisconnectionHandler : Bool
  sessionStoppedHandler : Bool
  sessionStartedHandler : Bool
  calls : Calls
  trace : List Event
  deriving DecidableEq, Repr

/-- The answers of the collaborators. `stop`, `deInit`, `reset` answer with a
status; `millis` with a clock reading; the start and configuration-build
methods of the absent `NearbySession` answer with a status and the record as
they leave it. The first argument is the number of earlier calls of the same
kind; a payload pointer `data` is passed as the bytes `data[0], data[1], ...`. -/
structure Env where
  millis : Nat → Nat
  stop : Nat → Status
  deInit : Nat → Status
  reset : Nat → Status
  startAndroid : Nat → NearbySession → (Nat → Nat) → Status × NearbySession
  startIOS : Nat → NearbySession → (Nat → Nat) → Status × NearbySession
  configIOS : Nat → NearbySession → Status × NearbySession
  configAndroid : Nat → NearbySession → Status × NearbySession

/-- The reference `find` returns: a slot of the table or `emptySession`. -/
inductive SessionRef where
  | slot (i : Nat)
  | empty
  deriving DecidableEq, Repr

/-- Why a run of the model stops without a result. -/
inductive Fault where
  | outOfFuel
  | nullDereference
  deriving DecidableEq, Repr

/-! ## Record access through a reference -/

/-- Number of live entries of the table. -/
def numSessions (m : NearbySessionManager) : Nat := m.sessions.length

/-- Read the record a reference designates. -/
def deref (m : NearbySessionManager) : SessionRef → NearbySession
  | SessionRef.slot i => m.sessions.getD i m.emptySession
  | SessionRef.empty => m.emptySession

/-- Overwrite the record a reference designates. -/
def assign (m : NearbySessionManager) (r : SessionRef) (s : NearbySession) :
    NearbySessionManager :=
  match r with
  | SessionRef.slot i => { m with sessions := m.sessions.set i s }
  | SessionRef.empty => { m with emptySession := s }

/-- The setter `nearbySession.sessionState(v)` through a reference. -/
def setSessionState (m : NearbySessionManager) (r : SessionRef) (v : SessionState) :
    NearbySessionManager :=
  assign m r { deref m r with sessionState := v }

/-- Append an event to the history. -/
def emit (m : NearbySessionManager) (e : Event) : NearbySessionManager :=
  { m with trace := m.trace ++ [e] }

/-- The loop of `find` from index `i` on: the first entry whose address
matches. -/
def findFrom (addr : Nat) : List NearbySession → Nat → SessionRef
  | [], _ => SessionRef.empty
  | s :: rest, i => if s.bleAddress = addr then SessionRef.slot i else findFrom addr rest (i + 1)

/-- `NearbySessionManager::find`: the first record with the device's address,
else the sentinel `emptySession`. -/
def find (m : NearbySessionManager) (dev : BLEDevice) : SessionRef :=
  findFrom dev.address m.sessions 0

/-! ## External calls -/

/-- `millis()`: a 32-bit reading. -/
def millis (env : Env) (m : NearbySessionManager) : Nat × NearbySessionManager :=
  (env.millis m.calls.millis % 2 ^ 32,
   emit { m with calls := { m.calls with millis := m.calls.millis + 1 } } Event.millis)

/-- `nearbySession.stop()`. -/
def stop (env : Env) (m : NearbySessionManager) : Status × NearbySessionManager :=
  (env.stop m.calls.stop,
   emit { m with calls := { m.calls with stop := m.calls.stop + 1 } } Event.stop)

/-- `nearbySession.deInit()`. -/
def deInit (env : Env) (m : NearbySessionManager) : Status × NearbySessionManager :=
  (env.deInit m.calls.deInit,
   emit { m with calls := { m.calls with deInit := m.calls.deInit + 1 } } Event.deInit)

/-- `UWBHAL.reset()`. -/
def reset (env : Env) (m : NearbySessionManager) : Status × NearbySessionManager :=
  (env.reset m.calls.reset,
   emit { m with calls := { m.calls with reset := m.calls.reset + 1 } } Event.reset)

/-- The hook call `if (sessionStoppedHandler != nullptr) sessionStoppedHandler(bleDev)`. -/
def notifySessionStopped (m : NearbySessionManager) (bleDev : BLEDevice) :
    NearbySessionManager :=
  if m.sessionStoppedHandler then emit m (Event.sessionStopped bleDev) else m

/-! ## handleStopSession -/

/-- The test `operation == SUCCESS || operation == SESSION_NOT_EXIST`. -/
def isDone (operation : Status) : Bool :=
  operation = Status.SUCCESS || operation = Status.SESSION_NOT_EXIST

/-- The constant `timeoutMs`. -/
def timeoutMs : Nat := 2000

/-- The 32-bit difference `millis() - t0`. -/
def elapsed (now t0 : Nat) : Nat := (now + 2 ^ 32 - t0 % 2 ^ 32) % 2 ^ 32

/-- The `switch` of the teardown loop: the new value of `status` and the
manager after one transition. -/
def stopSwitch (env : Env) (r : SessionRef) (status : Bool) (m : NearbySessionManager) :
    Bool × NearbySessionManager :=
  match (deref m r).sessionState with
  | SessionState.Started =>
    let (operation, m1) := stop env m
    if isDone operation then (status, setSessionState m1 r SessionState.notStarted)
    else (false, m1)
  | SessionState.notStarted =>
    let (_, m1) := stop env m
    let (operation, m2) := deInit env m1
    if isDone operation then (status, setSessionState m2 r SessionState.notCreated)
    else (false, m2)
  | _ => (false, setSessionState m r SessionState.notCreated)

/-- The `while (nearbySession.sessionState() != notCreated)` loop; one unit of
fuel per evaluation of the loop condition. The result is `status` and the
manager when the loop is left. -/
def stopLoop (env : Env) (r : SessionRef) (t0 : Nat) :
    Nat → Bool → Nat → NearbySessionManager → Except Fault (Bool × NearbySessionManager)
  | 0, _, _, _ => Except.error Fault.outOfFuel
  | fuel + 1, status, attempts, m =>
    if (deref m r).sessionState = SessionState.notCreated then Except.ok (status, m)
    else
      let (now, m1) := millis env m
      if elapsed now t0 > timeoutMs then Except.ok (false, m1)
      else
        let attempts1 := (attempts + 1) % 256
        if attempts1 > 8 then Except.ok (false, m1)
        else
          let (status1, m2) := stopSwitch env r status m1
          if !status1 then Except.ok (status1, m2)
          else stopLoop env r t0 fuel status1 attempts1 m2

/-- The code after the loop: give the semaphore, reset on failure, notify. -/
def stopEpilogue (env : Env) (r : SessionRef) (bleDev : BLEDevice) (status : Bool)
    (m : NearbySessionManager) : Bool × NearbySessionManager :=
  let m1 := emit m Event.semaphoreGive
  let m2 := if !status then setSessionState (reset env m1).2 r SessionState.notCreated else m1
  (status, notifySessionStopped m2 bleDev)

/-- `NearbySessionManager::handleStopSession`. -/
def handleStopSession (env : Env) (fuel : Nat) (m : NearbySessionManager) (bleDev : BLEDevice) :
    Except Fault (Bool × NearbySessionManager) :=
  let r := find m bleDev
  if (deref m r).sessionState = SessionState.notCreated then
    Except.ok (true, notifySessionStopped m bleDev)
  else
    let (t0, m1) := millis env m
    let m2 := emit m1 Event.semaphoreTake
    match stopLoop env r t0 fuel true 0 m2 with
    | Except.error f => Except.error f
    | Except.ok (status, m3) => Except.ok (stopEpilogue env r bleDev status m3)

/-! ## handleTLV -/

/-- The message identifiers, declared in a header outside `src/` and taken
as parameters. The four `kMsg_` values are the `case` labels of one `switch`,
hence pairwise different. -/
structure MsgIds where
  kMsg_ConfigureAndStart : Nat
  kMsg_Initialize_iOS : Nat
  kMsg_Initialize_Android : Nat
  kMsg_Stop : Nat
  kRsp_UwbDidStart : Nat
  kRsp_UwbDidStop : Nat
  labels_nodup :
    [kMsg_ConfigureAndStart, kMsg_Initialize_iOS, kMsg_Initialize_Android, kMsg_Stop].Nodup

/-- `nearbySession.startAndroid(data)` on the referenced record. -/
def startAndroid (env : Env) (r : SessionRef) (data : Nat → Nat) (m : NearbySessionManager) :
    Status × NearbySessionManager :=
  let res := env.startAndroid m.calls.startAndroid (deref m r) data
  (res.1, emit (assign { m with calls := { m.calls with startAndroid := m.calls.startAndroid + 1 } }
    r res.2) Event.startAndroid)

/-- `nearbySession.startIOS(data)` on the referenced record. -/
def startIOS (env : Env) (r : SessionRef) (data : Nat → Nat) (m : NearbySessionManager) :
    Status × NearbySessionManager :=
  let res := env.startIOS m.calls.startIOS (deref m r) data
  (res.1, emit (assign { m with calls := { m.calls with startIOS := m.calls.startIOS + 1 } }
    r res.2) Event.startIOS)

/-- `nearbySession.configIOS()` on the referenced record. -/
def configIOS (env : Env) (r : SessionRef) (m : NearbySessionManager) :
    Status × NearbySessionManager :=
  let res := env.configIOS m.calls.configIOS (deref m r)
  (res.1, emit (assign { m with calls := { m.calls with configIOS := m.calls.configIOS + 1 } }
    r res.2) Event.configIOS)

/-- `nearbySession.configAndroid()` on the referenced record. -/
def configAndroid (env : Env) (r : SessionRef) (m : NearbySessionManager) :
    Status × NearbySessionManager :=
  let res := env.configAndroid m.calls.configAndroid (deref m r)
  (res.1, emit (assign { m with calls := { m.calls with configAndroid := m.calls.configAndroid + 1 } }
    r res.2) Event.configAndroid)

/-- `ch.writeValue(value, length)`. -/
def writeValue (ch : Channel) (value : List Nat) (length : Int) (m : NearbySessionManager) :
    NearbySessionManager :=
  emit m (Event.writeValue ch value length)

/-- `txCharacteristic.writeValue(&response, sizeof(response))` for the one-byte
local `response`. -/
def writeResponse (response : Nat) (m : NearbySessionManager) : NearbySessionManager :=
  writeValue Channel.txCharacteristic [response] 1 m

/-- The `case kMsg_ConfigureAndStart` branch. -/
def caseConfigureAndStart (P : MsgIds) (env : Env) (r : SessionRef) (data : Nat → Nat)
    (m : NearbySessionManager) : NearbySessionManager :=
  let m1 := setSessionState m r SessionState.notStarted
  if (deref m1 r).deviceType = DeviceType.Android then
    let (st, m2) := startAndroid env r data m1
    let m3 := if st = Status.SUCCESS then writeResponse P.kRsp_UwbDidStart m2 else m2
    writeResponse P.kRsp_UwbDidStart m3
  else if (deref m1 r).deviceType = DeviceType.iOS then
    let (st, m2) := startIOS env r data m1
    if st = Status.SUCCESS then
      let m3 := writeResponse P.kRsp_UwbDidStart m2
      if (deref m3 r).shouldUpdateAccessory then
        writeValue Channel.accessoryConfigDataChar (List.replicate 50 0) 50 m3
      else m3
    else m2
  else m1

/-- The `case kMsg_Initialize_iOS` branch. -/
def caseInitialize_iOS (env : Env) (r : SessionRef) (m : NearbySessionManager) :
    NearbySessionManager :=
  let (st, m1) := configIOS env r m
  if st = Status.SUCCESS then
    let BLEmessage_iOS := (deref m1 r).config
    if (deref m1 r).shouldUpdateAccessory then
      let m2 := writeValue Channel.accessoryConfigDataChar (BLEmessage_iOS.drop 1)
        (((deref m1 r).configLen : Int) - 1) m1
      writeValue Channel.txCharacteristic BLEmessage_iOS ((deref m2 r).configLen : Int) m2
    else
      writeValue Channel.txCharacteristic BLEmessage_iOS ((deref m1 r).configLen : Int) m1
  else m1

/-- The `case kMsg_Initialize_Android` branch. -/
def caseInitialize_Android (env : Env) (r : SessionRef) (m : NearbySessionManager) :
    NearbySessionManager :=
  let (st, m1) := configAndroid env r m
  if st = Status.SUCCESS then
    writeValue Channel.txCharacteristic (deref m1 r).config ((deref m1 r).configLen : Int) m1
  else m1

/-- The `case kMsg_Stop` branch. -/
def caseStop (P : MsgIds) (env : Env) (fuel : Nat) (bleDev : BLEDevice)
    (m : NearbySessionManager) : Except Fault NearbySessionManager :=
  match handleStopSession env fuel m bleDev with
  | Except.error f => Except.error f
  | Except.ok (_, m1) => Except.ok (writeResponse P.kRsp_UwbDidStop m1)

/-- `NearbySessionManager::handleTLV`. The pointer `data` is `none` when it is
`NULL`, else the bytes `data[0], data[1], ...` behind it. The `NULL` test only
logs; the record is resolved and `data[0]` is read whatever its outcome. -/
def handleTLV (P : MsgIds) (env : Env) (fuel : Nat) (m : NearbySessionManager)
    (bleDev : BLEDevice) (data : Option (Nat → Nat)) : Except Fault NearbySessionManager :=
  let r := find m bleDev
  match data with
  | none => Except.error Fault.nullDereference
  | some bytes =>
    if bytes 0 = P.kMsg_ConfigureAndStart then Except.ok (caseConfigureAndStart P env r bytes m)
    else if bytes 0 = P.kMsg_Initialize_iOS then Except.ok (caseInitialize_iOS env r m)
    else if bytes 0 = P.kMsg_Initialize_Android then Except.ok (caseInitialize_Android env r m)
    else if bytes 0 = P.kMsg_Stop then caseStop P env fuel bleDev m
    else Except.ok m

/-! ## Registry and connection events -/

/-- What `NearbySessionManager.cpp` uses from the headers outside `src/`,
taken as parameters: the capacity `maxSessions` of the table, the record the
default constructor `NearbySession()` yields, and the record the constructor
`NearbySession(central)` yields. -/
structure Decls where
  maxSessions : Nat
  newSession : NearbySession
  sessionOf : BLEDevice → NearbySession

/-- `NearbySessionManager::addSession`: the record is allocated and filled
before the capacity test; it is stored at index `numSessions`, which then
grows by one. -/
def addSession (D : Decls) (m : NearbySessionManager) (sess : NearbySession) :
    Bool × NearbySessionManager :=
  let newSess := { D.newSession with
    sessionID := sess.sessionID, sessionType := sess.sessionType, bleAddress := sess.bleAddress }
  if numSessions m ≥ D.maxSessions then (false, m)
  else (true, { m with sessions := m.sessions ++ [newSess] })

/-- `NearbySessionManager::blePeripheralConnectHandler`. -/
def blePeripheralConnectHandler (D : Decls) (m : NearbySessionManager) (central : BLEDevice) :
    NearbySessionManager :=
  let newSession := D.sessionOf central
  let m1 := (addSession D m newSession).2
  if m1.clientConnectionHandler then emit m1 (Event.clientConnected central) else m1

/-- Modelled from the spec: `deleteSession(sessionID)` is defined outside
`src/`; the spec gives it as `remove(sessionId)` with no side effect beyond
the table. It is taken to remove the first record of the table that carries
the identifier, the later records moving down. -/
def deleteSession (m : NearbySessionManager) (sessionID : Nat) : NearbySessionManager :=
  { m with sessions := m.sessions.eraseP (fun s => s.sessionID == sessionID) }

/-- The hook call `if (clientDisconnectionHandler) clientDisconnectionHandler(central)`. -/
def notifyDisconnected (m : NearbySessionManager) (central : BLEDevice) :
    NearbySessionManager :=
  if m.clientDisconnectionHandler then emit m (Event.clientDisconnected central) else m

/-- The first two steps of `blePeripheralDisconnectHandler`: the teardown by
`handleStopSession`, whose result is dropped, then the disconnect hook. The
result is the manager at the moment the hook has returned. -/
def disconnectNotified (env : Env) (fuel : Nat) (m : NearbySessionManager)
    (central : BLEDevice) : Except Fault NearbySessionManager :=
  match handleStopSession env fuel m central with
  | Except.error f => Except.error f
  | Except.ok (_, m1) => Except.ok (notifyDisconnected m1 central)

/-- `NearbySessionManager::blePeripheralDisconnectHandler`: teardown, hook,
then `deleteSession(find(central).sessionID())`. -/
def blePeripheralDisconnectHandler (env : Env) (fuel : Nat) (m : NearbySessionManager)
    (central : BLEDevice) : Except Fault NearbySessionManager :=
  match disconnectNotified env fuel m central with
  | Except.error f => Except.error f
  | Except.ok m2 => Except.ok (deleteSession m2 (deref m2 (find m2 central)).sessionID)

/-! ## The teardown loop with its exit recorded -/

/-- The four ways out of the `while` loop of `handleStopSession`. -/
inductive LoopExit where
  | conditionFalse
  | timeout
  | attemptLimit
  | failedTransition
  deriving DecidableEq, Repr

/-- The loop of `handleStopSession` once more, also handing back which exit
was taken and how many times the loop body was entered (`bodies`). -/
def stopLoopTraced (env : Env) (r : SessionRef) (t0 : Nat) :
    Nat → Bool → Nat → Nat → NearbySessionManager →
      Except Fault (LoopExit × Nat × Bool × NearbySessionManager)
  | 0, _, _, _, _ => Except.error Fault.outOfFuel
  | fuel + 1, status, attempts, bodies, m =>
    if (deref m r).sessionState = SessionState.notCreated then
      Except.ok (LoopExit.conditionFalse, bodies, status, m)
    else
      let (now, m1) := millis env m
      if elapsed now t0 > timeoutMs then Except.ok (LoopExit.timeout, bodies + 1, false, m1)
      else
        let attempts1 := (attempts + 1) % 256
        if attempts1 > 8 then Except.ok (LoopExit.attemptLimit, bodies + 1, false, m1)
        else
          let (status1, m2) := stopSwitch env r status m1
          if !status1 then Except.ok (LoopExit.failedTransition, bodies + 1, status1, m2)
          else stopLoopTraced env r t0 fuel status1 attempts1 (bodies + 1) m2

/-! ## Auxiliary definitions for the proofs -/

/-- A reference that designates a record of this manager. -/
def validRef (m : NearbySessionManager) : SessionRef → Prop
  | SessionRef.slot i => i < m.sessions.length
  | SessionRef.empty => True

/-- Outcome table of the teardown: the returned status and the events between
entry and the hook call, by entry state, by whether the first and the second
timeout check fire, and by whether the deciding `stop` and `deInit` succeed. -/
def teardownTable (s0 : SessionState) (late1 late2 stopOk deInitOk : Bool) : Bool × List Event :=
  match s0 with
  | SessionState.notCreated => (true, [])
  | SessionState.Started =>
    if late1 then
      (false, [Event.millis, Event.semaphoreTake, Event.millis, Event.semaphoreGive, Event.reset])
    else if !stopOk then
      (false, [Event.millis, Event.semaphoreTake, Event.millis, Event.stop,
               Event.semaphoreGive, Event.reset])
    else if late2 then
      (false, [Event.millis, Event.semaphoreTake, Event.millis, Event.stop, Event.millis,
               Event.semaphoreGive, Event.reset])
    else if deInitOk then
      (true, [Event.millis, Event.semaphoreTake, Event.millis, Event.stop, Event.millis,
              Event.stop, Event.deInit, Event.semaphoreGive])
    else
      (false, [Event.millis, Event.semaphoreTake, Event.millis, Event.stop, Event.millis,
               Event.stop, Event.deInit, Event.semaphoreGive, Event.reset])
  | SessionState.notStarted =>
    if late1 then
      (false, [Event.millis, Event.semaphoreTake, Event.millis, Event.semaphoreGive, Event.reset])
    else if deInitOk then
      (true, [Event.millis, Event.semaphoreTake, Event.millis, Event.stop, Event.deInit,
              Event.semaphoreGive])
    else
      (false, [Event.millis, Event.semaphoreTake, Event.millis, Event.stop, Event.deInit,
               Event.semaphoreGive, Event.reset])
  | SessionState.other _ =>
    (false, [Event.millis, Event.semaphoreTake, Event.millis, Event.semaphoreGive, Event.reset])

/-- The reading of the `k`-th later `millis()` call is past the timeout,
counted from the reading `t0` taken on entry. -/
def lateAt (env : Env) (m : NearbySessionManager) (k : Nat) : Bool :=
  decide (timeoutMs < elapsed (env.millis (m.calls.millis + k) % 2 ^ 32)
    (env.millis m.calls.millis % 2 ^ 32))

/-- The table entry for a run from manager `m`. -/
def teardownOutcome (env : Env) (m : NearbySessionManager) (bleDev : BLEDevice) :
    Bool × List Event :=
  teardownTable (deref m (find m bleDev)).sessionState (lateAt env m 1) (lateAt env m 2)
    (isDone (env.stop m.calls.stop)) (isDone (env.deInit m.calls.deInit))

/-- The records of a manager: the table and the sentinel. -/
def recordsOf (m : NearbySessionManager) : List NearbySession × NearbySession :=
  (m.sessions, m.emptySession)

/-- The four hook registrations of a manager. -/
def hooksOf (m : NearbySessionManager) : Bool × Bool × Bool × Bool :=
  (m.clientConnectionHandler, m.clientDisconnectionHandler, m.sessionStoppedHandler,
    m.sessionStartedHandler)

/-- Read a record out of a pair of table and sentinel. -/
def derefIn (R : List NearbySession × NearbySession) : SessionRef → NearbySession
  | SessionRef.slot i => R.1.getD i R.2
  | SessionRef.empty => R.2

/-- Set the state of one record in a pair of table and sentinel. -/
def setStateIn (R : List NearbySession × NearbySession) (r : SessionRef) (v : SessionState) :
    List NearbySession × NearbySession :=
  match r with
  | SessionRef.slot i => (R.1.set i { R.1.getD i R.2 with sessionState := v }, R.2)
  | SessionRef.empty => (R.1, { R.2 with sessionState := v })

/-- Manager `m'` differs from `m` in its records at most by the state of the
record `r` designates, and has the same hooks registered. -/
def touched (r : SessionRef) (m m' : NearbySessionManager) : Prop :=
  hooksOf m' = hooksOf m ∧ ∃ v, recordsOf m' = setStateIn (recordsOf m) r v

/-- Of the events of a teardown, those after the first two (the entry clock
reading and the semaphore take) and before the semaphore give. -/
def heldEvents (evs : List Event) : List Event :=
  (evs.drop 2).takeWhile (fun e => e != Event.semaphoreGive)

/-- Of the events of a teardown, those after the semaphore give. -/
def releasedEvents (evs : List Event) : List Event :=
  ((evs.drop 2).dropWhile (fun e => e != Event.semaphoreGive)).drop 1

/-- The sentinel as `handleTLV` hands it to a platform start: already set to
`notStarted`. -/
def sentinelArg (m : NearbySessionManager) : NearbySession :=
  { m.emptySession with sessionState := SessionState.notStarted }

/-- The sentinel as the start branch of `handleTLV` leaves it: the record the
platform start hands back when it is run on the sentinel (device type
`Android` or `iOS`), else the sentinel set to `notStarted`. -/
def sentinelAfter (env : Env) (m : NearbySessionManager) (data : Nat → Nat) : NearbySession :=
  if m.emptySession.deviceType = DeviceType.Android then
    (env.startAndroid m.calls.startAndroid (sentinelArg m) data).2
  else if m.emptySession.deviceType = DeviceType.iOS then
    (env.startIOS m.calls.startIOS (sentinelArg m) data).2
  else sentinelArg m

/-- The events that are writes to a BLE characteristic. -/
def isWrite : Event → Bool
  | Event.writeValue _ _ _ => true
  | _ => false

/-- The bytes `writeValue(value, length)` hands over when `length` does not
exceed what lies behind `value`. -/
def sent (value : List Nat) (length : Int) : List Nat := value.take length.toNat

/-- The record as `configIOS()` leaves it when `handleTLV` calls it for the
peer `bleDev`. -/
def builtIOS (env : Env) (m : NearbySessionManager) (bleDev : BLEDevice) : NearbySession :=
  (env.configIOS m.calls.configIOS (deref m (find m bleDev))).2

/-- The record `startAndroid(data)` receives when `handleTLV` calls it for the
peer `bleDev`: the resolved record, already set to `notStarted`. -/
def startArg (m : NearbySessionManager) (bleDev : BLEDevice) : NearbySession :=
  { deref m (find m bleDev) with sessionState := SessionState.notStarted }

/-! ## Concrete inputs -/

/-- Message identifiers of the accessory protocol, as sample values. -/
def sampleIds : MsgIds :=
  { kMsg_ConfigureAndStart := 0x0B, kMsg_Initialize_iOS := 0x0A,
    kMsg_Initialize_Android := 0xA5, kMsg_Stop := 0x0C,
    kRsp_UwbDidStart := 0x02, kRsp_UwbDidStop := 0x03,
    labels_nodup := by decide }

/-- A record for the peer with address 42. -/
def sampleSession (st : SessionState) (dt : DeviceType) : NearbySession :=
  { sessionID := 1, sessionType := 0, bleAddress := 42, sessionState := st, deviceType := dt,
    sessionHandle := 0, config := [], configLen := 0, shouldUpdateAccessory := false }

/-- A manager holding one record, with the session-stopped hook registered. -/
def sampleManager (st : SessionState) (dt : DeviceType) : NearbySessionManager :=
  { sessions := [sampleSession st dt],
    emptySession := { sampleSession SessionState.notCreated (DeviceType.other 0) with
      bleAddress := 0 },
    clientConnectionHandler := false, clientDisconnectionHandler := false,
    sessionStoppedHandler := true, sessionStartedHandler := false,
    calls := ⟨0, 0, 0, 0, 0, 0, 0, 0⟩, trace := [] }

/-- The peer with address 42. -/
def sampleDevice : BLEDevice := ⟨42⟩

/-- A configuration payload of ten bytes, the first being the response id. -/
def samplePayload : List Nat := [1, 10, 11, 12, 13, 14, 15, 16, 17, 18]

/-- Collaborators that answer every radio call with `st`, whose clock stands
still, and whose configuration build leaves a ten-byte payload and sets the
accessory-update flag. -/
def sampleEnv (st : Status) : Env :=
  { millis := fun _ => 0, stop := fun _ => st, deInit := fun _ => st, reset := fun _ => st,
    startAndroid := fun _ s _ => (st, s), startIOS := fun _ s _ => (st, s),
    configIOS := fun _ s =>
      (st, { s with config := samplePayload, configLen := 10, shouldUpdateAccessory := true }),
    configAndroid := fun _ s => (st, { s with config := samplePayload, configLen := 10 }) }

/-- Header parameters with capacity `cap`; the constructed record carries the
address of the device, which also serves as its session identifier. -/
def sampleDecls (cap : Nat) : Decls :=
  { maxSessions := cap,
    newSession := { sampleSession SessionState.notCreated (DeviceType.other 0) with
      sessionID := 0, bleAddress := 0 },
    sessionOf := fun d =>
      { sampleSession SessionState.notCreated (DeviceType.other 0) with
        sessionID := d.address, bleAddress := d.address } }

/-- A manager with an empty table and every hook registered. -/
def emptyManager : NearbySessionManager :=
  { sampleManager SessionState.notCreated DeviceType.iOS with
    sessions := [], clientConnectionHandler := true, clientDisconnectionHandler := true }

/-- A manager holding one `Started` record for the peer with address 42,
with every hook registered. -/
def connectedManager : NearbySessionManager :=
  { sampleManager SessionState.Started DeviceType.iOS with
    clientConnectionHandler := true, clientDisconnectionHandler := true }

/-- Collaborators like `sampleEnv st`, but whose clock reads `t` on entry
and `t'` at every later reading. -/
def clockEnv (st : Status) (t t' : Nat) : Env :=
  { sampleEnv st with millis := fun k => if k = 0 then t else t' }

/-- A peer with address 7, which has no record in the sample managers. -/
def absentDevice : BLEDevice := ⟨7⟩

/-- Collaborators like `sampleEnv st`, but whose platform starts answer
`startSt` and leave the record in state `after`. -/
def startEnv (st startSt : Status) (after : SessionState) : Env :=
  { sampleEnv st with
    startAndroid := fun _ s _ => (startSt, { s with sessionState := after }),
    startIOS := fun _ s _ => (startSt, { s with sessionState := after }) }

/-- A manager like `sampleManager notCreated iOS`, but whose sentinel has
device type `iOS`. -/
def iosSentinelManager : NearbySessionManager :=
  { sampleManager SessionState.notCreated DeviceType.iOS with
    emptySession := { sampleSession SessionState.notCreated DeviceType.iOS with
      bleAddress := 0 } }

/-- A payload pointer whose first byte is `op`. -/
def sampleData (op : Nat) : Nat → Nat := fun i => if i = 0 then op else 0

/-! ## Lemmas: references and external calls -/

theorem findFrom_lt (addr : Nat) (l : List NearbySession) (k i : Nat)
    (h : findFrom addr l k = SessionRef.slot i) : k ≤ i ∧ i < k + l.length := by
  induction l generalizing k with
  | nil => simp [findFrom] at h
  | cons s rest ih =>
    simp only [findFrom] at h
    split at h
    · cases h; simp
    · have := ih (k + 1) h
      simp only [List.length_cons]; omega

theorem validRef_find (m : NearbySessionManager) (dev : BLEDevice) : validRef m (find m dev) := by
  unfold find
  cases h : findFrom dev.address m.sessions 0 with
  | empty => trivial
  | slot i => have := findFrom_lt _ _ _ _ h; simp only [validRef]; omega

@[simp] theorem deref_emit (m : NearbySessionManager) (e : Event) (r : SessionRef) :
    deref (emit m e) r = deref m r := by
  cases r <;> rfl

@[simp] theorem validRef_emit (m : NearbySessionManager) (e : Event) (r : SessionRef) :
    validRef (emit m e) r = validRef m r := by
  cases r <;> rfl

@[simp] theorem trace_emit (m : NearbySessionManager) (e : Event) :
    (emit m e).trace = m.trace ++ [e] := rfl

@[simp] theorem handler_emit (m : NearbySessionManager) (e : Event) :
    (emit m e).sessionStoppedHandler = m.sessionStoppedHandler := rfl

@[simp] theorem calls_emit (m : NearbySessionManager) (e : Event) :
    (emit m e).calls = m.calls := rfl

theorem deref_assign (m : NearbySessionManager) (r : SessionRef) (s : NearbySession)
    (h : validRef m r) : deref (assign m r s) r = s := by
  cases r with
  | empty => rfl
  | slot i =>
    simp only [validRef] at h
    simp [deref, assign, List.getD, h]

@[simp] theorem validRef_assign (m : NearbySessionManager) (r q : SessionRef) (s : NearbySession) :
    validRef (assign m r s) q = validRef m q := by
  cases r <;> cases q <;> simp [validRef, assign]

@[simp] theorem trace_assign (m : NearbySessionManager) (r : SessionRef) (s : NearbySession) :
    (assign m r s).trace = m.trace := by
  cases r <;> rfl

@[simp] theorem handler_assign (m : NearbySessionManager) (r : SessionRef) (s : NearbySession) :
    (assign m r s).sessionStoppedHandler = m.sessionStoppedHandler := by
  cases r <;> rfl

@[simp] theorem calls_assign (m : NearbySessionManager) (r : SessionRef) (s : NearbySession) :
    (assign m r s).calls = m.calls := by
  cases r <;> rfl

theorem sessionState_setSessionState (m : NearbySessionManager) (r : SessionRef)
    (v : SessionState) (h : validRef m r) :
    (deref (setSessionState m r v) r).sessionState = v := by
  simp [setSessionState, deref_assign, h]

@[simp] theorem validRef_setSessionState (m : NearbySessionManager) (r q : SessionRef)
    (v : SessionState) : validRef (setSessionState m r v) q = validRef m q := by
  simp [setSessionState]

@[simp] theorem trace_setSessionState (m : NearbySessionManager) (r : SessionRef)
    (v : SessionState) : (setSessionState m r v).trace = m.trace := by
  simp [setSessionState]

@[simp] theorem handler_setSessionState (m : NearbySessionManager) (r : SessionRef)
    (v : SessionState) :
    (setSessionState m r v).sessionStoppedHandler = m.sessionStoppedHandler := by
  simp [setSessionState]

@[simp] theorem calls_setSessionState (m : NearbySessionManager) (r : SessionRef)
    (v : SessionState) : (setSessionState m r v).calls = m.calls := by
  simp [setSessionState]

@[simp] theorem deref_millis (env : Env) (m : NearbySessionManager) (r : SessionRef) :
    deref (millis env m).2 r = deref m r := by
  cases r <;> rfl

@[simp] theorem validRef_millis (env : Env) (m : NearbySessionManager) (r : SessionRef) :
    validRef (millis env m).2 r = validRef m r := by
  cases r <;> rfl

@[simp] theorem trace_millis (env : Env) (m : NearbySessionManager) :
    (millis env m).2.trace = m.trace ++ [Event.millis] := rfl

@[simp] theorem handler_millis (env : Env) (m : NearbySessionManager) :
    (millis env m).2.sessionStoppedHandler = m.sessionStoppedHandler := rfl

@[simp] theorem calls_millis (env : Env) (m : NearbySessionManager) :
    (millis env m).2.calls = { m.calls with millis := m.calls.millis + 1 } := rfl

@[simp] theorem deref_stop (env : Env) (m : NearbySessionManager) (r : SessionRef) :
    deref (stop env m).2 r = deref m r := by
  cases r <;> rfl

@[simp] theorem validRef_stop (env : Env) (m : NearbySessionManager) (r : SessionRef) :
    validRef (stop env m).2 r = validRef m r := by
  cases r <;> rfl

@[simp] theorem trace_stop (env : Env) (m : NearbySessionManager) :
    (stop env m).2.trace = m.trace ++ [Event.stop] := rfl

@[simp] theorem handler_stop (env : Env) (m : NearbySessionManager) :
    (stop env m).2.sessionStoppedHandler = m.sessionStoppedHandler := rfl

@[simp] theorem calls_stop (env : Env) (m : NearbySessionManager) :
    (stop env m).2.calls = { m.calls with stop := m.calls.stop + 1 } := rfl

@[simp] theorem deref_deInit (env : Env) (m : NearbySessionManager) (r : SessionRef) :
    deref (deInit env m).2 r = deref m r := by
  cases r <;> rfl

@[simp] theorem validRef_deInit (env : Env) (m : NearbySessionManager) (r : SessionRef) :
    validRef (deInit env m).2 r = validRef m r := by
  cases r <;> rfl

@[simp] theorem trace_deInit (env : Env) (m : NearbySessionManager) :
    (deInit env m).2.trace = m.trace ++ [Event.deInit] := rfl

@[simp] theorem handler_deInit (env : Env) (m : NearbySessionManager) :
    (deInit env m).2.sessionStoppedHandler = m.sessionStoppedHandler := rfl

@[simp] theorem calls_deInit (env : Env) (m : NearbySessionManager) :
    (deInit env m).2.calls = { m.calls with deInit := m.calls.deInit + 1 } := rfl

@[simp] theorem deref_reset (env : Env) (m : NearbySessionManager) (r : SessionRef) :
    deref (reset env m).2 r = deref m r := by
  cases r <;> rfl

@[simp] theorem validRef_reset (env : Env) (m : NearbySessionManager) (r : SessionRef) :
    validRef (reset env m).2 r = validRef m r := by
  cases r <;> rfl

@[simp] theorem trace_reset (env : Env) (m : NearbySessionManager) :
    (reset env m).2.trace = m.trace ++ [Event.reset] := rfl

@[simp] theorem handler_reset (env : Env) (m : NearbySessionManager) :
    (reset env m).2.sessionStoppedHandler = m.sessionStoppedHandler := rfl

@[simp] theorem calls_reset (env : Env) (m : NearbySessionManager) :
    (reset env m).2.calls = { m.calls with reset := m.calls.reset + 1 } := rfl

theorem fst_millis (env : Env) (m : NearbySessionManager) :
    (millis env m).1 = env.millis m.calls.millis % 2 ^ 32 := rfl

@[simp] theorem fst_stop (env : Env) (m : NearbySessionManager) :
    (stop env m).1 = env.stop m.calls.stop := rfl

@[simp] theorem fst_deInit (env : Env) (m : NearbySessionManager) :
    (deInit env m).1 = env.deInit m.calls.deInit := rfl

/-! ## Lemmas: the teardown loop, state by state -/

theorem stopLoop_notCreated (env : Env) (r : SessionRef) (t0 fuel : Nat) (status : Bool)
    (attempts : Nat) (m : NearbySessionManager)
    (hs : (deref m r).sessionState = SessionState.notCreated) :
    stopLoop env r t0 (fuel + 1) status attempts m = Except.ok (status, m) := by
  simp [stopLoop, hs]

theorem stopLoop_notStarted (env : Env) (r : SessionRef) (t0 fuel : Nat)
    (attempts : Nat) (m : NearbySessionManager) (hv : validRef m r) (ha : attempts < 8)
    (hs : (deref m r).sessionState = SessionState.notStarted) :
    stopLoop env r t0 (fuel + 2) true attempts m =
      Except.ok
        (if timeoutMs < elapsed (millis env m).1 t0 then (false, (millis env m).2)
         else if isDone (env.deInit m.calls.deInit) then
           (true, setSessionState (deInit env (stop env (millis env m).2).2).2 r
              SessionState.notCreated)
         else (false, (deInit env (stop env (millis env m).2).2).2)) := by
  have h8 : ¬ 8 < (attempts + 1) % 256 := by omega
  rw [stopLoop]
  by_cases ht : timeoutMs < elapsed (millis env m).1 t0
  · simp [hs, ht]
  · by_cases hd : isDone (env.deInit m.calls.deInit) = true
    · simp [hs, ht, h8, hd, stopSwitch, stopLoop_notCreated, sessionState_setSessionState, hv]
    · simp [hs, ht, h8, hd, stopSwitch]

theorem stopLoop_Started (env : Env) (r : SessionRef) (t0 fuel : Nat)
    (m : NearbySessionManager) (hv : validRef m r)
    (hs : (deref m r).sessionState = SessionState.Started) :
    stopLoop env r t0 (fuel + 3) true 0 m =
      Except.ok
        (if timeoutMs < elapsed (millis env m).1 t0 then (false, (millis env m).2)
         else if isDone (env.stop m.calls.stop) then
           (if timeoutMs < elapsed (millis env (setSessionState (stop env (millis env m).2).2 r
                SessionState.notStarted)).1 t0 then
              (false, (millis env (setSessionState (stop env (millis env m).2).2 r
                SessionState.notStarted)).2)
            else if isDone (env.deInit m.calls.deInit) then
              (true, setSessionState (deInit env (stop env (millis env (setSessionState
                (stop env (millis env m).2).2 r SessionState.notStarted)).2).2).2 r
                SessionState.notCreated)
            else (false, (deInit env (stop env (millis env (setSessionState
                (stop env (millis env m).2).2 r SessionState.notStarted)).2).2).2))
         else (false, (stop env (millis env m).2).2)) := by
  rw [stopLoop]
  by_cases ht : timeoutMs < elapsed (millis env m).1 t0
  · simp [hs, ht]
  · by_cases hd : isDone (env.stop m.calls.stop) = true
    · simp only [hs, ht, hd, stopSwitch, deref_millis, fst_stop, calls_millis]
      simp only [reduceCtorEq, if_false, if_true, Nat.zero_add, Nat.reduceMod, Nat.reduceLT,
        gt_iff_lt, Bool.not_true, Bool.false_eq_true]
      rw [stopLoop_notStarted _ _ _ _ _ _ (by simp [hv]) (by omega)
        (by simp [sessionState_setSessionState, hv])]
      simp
    · simp [hs, ht, hd, stopSwitch]

theorem stopLoop_other (env : Env) (r : SessionRef) (t0 fuel : Nat) (attempts : Nat)
    (m : NearbySessionManager) (ha : attempts < 8) (v : Nat)
    (hs : (deref m r).sessionState = SessionState.other v) :
    stopLoop env r t0 (fuel + 1) true attempts m =
      Except.ok
        (if timeoutMs < elapsed (millis env m).1 t0 then (false, (millis env m).2)
         else (false, setSessionState (millis env m).2 r SessionState.notCreated)) := by
  have h8 : ¬ 8 < (attempts + 1) % 256 := by omega
  rw [stopLoop]
  by_cases ht : timeoutMs < elapsed (millis env m).1 t0
  · simp [hs, ht]
  · simp [hs, ht, h8, stopSwitch]


theorem findFrom_set (addr : Nat) (l : List NearbySession) (i k : Nat) (s : NearbySession)
    (h : ∀ x, l[i]? = some x → s.bleAddress = x.bleAddress) :
    findFrom addr (l.set i s) k = findFrom addr l k := by
  induction l generalizing i k with
  | nil => rfl
  | cons a rest ih =>
    cases i with
    | zero =>
      have := h a (by simp)
      simp [findFrom, this]
    | succ j =>
      simp only [List.set_cons_succ, findFrom]
      rw [ih j (k + 1) (fun x hx => h x (by simpa using hx))]

@[simp] theorem find_emit (m : NearbySessionManager) (e : Event) (dev : BLEDevice) :
    find (emit m e) dev = find m dev := rfl

@[simp] theorem find_millis (env : Env) (m : NearbySessionManager) (dev : BLEDevice) :
    find (millis env m).2 dev = find m dev := rfl

@[simp] theorem find_stop (env : Env) (m : NearbySessionManager) (dev : BLEDevice) :
    find (stop env m).2 dev = find m dev := rfl

@[simp] theorem find_deInit (env : Env) (m : NearbySessionManager) (dev : BLEDevice) :
    find (deInit env m).2 dev = find m dev := rfl

@[simp] theorem find_reset (env : Env) (m : NearbySessionManager) (dev : BLEDevice) :
    find (reset env m).2 dev = find m dev := rfl

@[simp] theorem find_setSessionState (m : NearbySessionManager) (r : SessionRef)
    (v : SessionState) (dev : BLEDevice) : find (setSessionState m r v) dev = find m dev := by
  cases r with
  | empty => rfl
  | slot i =>
    simp only [find, setSessionState, assign, deref]
    apply findFrom_set
    intro x hx
    simp [List.getD, hx]

theorem handleStopSession_outcome (env : Env) (fuel : Nat) (m : NearbySessionManager)
    (bleDev : BLEDevice) (hf : 3 ≤ fuel) :
    ∃ p, handleStopSession env fuel m bleDev = Except.ok p ∧
      p.1 = (teardownOutcome env m bleDev).1 ∧
      p.2.trace = m.trace ++ (teardownOutcome env m bleDev).2 ++
        (if m.sessionStoppedHandler then [Event.sessionStopped bleDev] else []) ∧
      (deref p.2 (find m bleDev)).sessionState = SessionState.notCreated ∧
      find p.2 bleDev = find m bleDev := by
  obtain ⟨n, rfl⟩ : ∃ n, fuel = n + 3 := ⟨fuel - 3, by omega⟩
  have hv := validRef_find m bleDev
  have hl1 : lateAt env m 1 = decide (timeoutMs < elapsed
      (millis env (emit (millis env m).2 Event.semaphoreTake)).1 (millis env m).1) := rfl
  cases hs : (deref m (find m bleDev)).sessionState with
  | notCreated =>
    refine ⟨(true, notifySessionStopped m bleDev), ?_, ?_, ?_, ?_, ?_⟩
    · simp [handleStopSession, hs]
    · simp [hs, teardownOutcome, teardownTable]
    · cases hh : m.sessionStoppedHandler <;>
        simp [notifySessionStopped, hh, hs, teardownOutcome, teardownTable]
    · cases hh : m.sessionStoppedHandler <;> simp [notifySessionStopped, hh, hs]
    · cases hh : m.sessionStoppedHandler <;> simp [notifySessionStopped, hh]
  | notStarted =>
    have hloop := stopLoop_notStarted env (find m bleDev) (millis env m).1 (n + 1) 0
      (emit (millis env m).2 Event.semaphoreTake) (by simpa using hv) (by omega)
      (by simpa using hs)
    simp only [handleStopSession, hs, reduceCtorEq, if_false, hloop, teardownOutcome, hl1]
    by_cases ht : timeoutMs < elapsed
      (millis env (emit (millis env m).2 Event.semaphoreTake)).1 (millis env m).1
    · simp only [ht, if_true]
      refine ⟨_, rfl, ?_, ?_, ?_, ?_⟩ <;> cases hh : m.sessionStoppedHandler <;>
        simp [teardownTable, stopEpilogue, notifySessionStopped, hh,
          sessionState_setSessionState, hv, ht]
    · by_cases hd : isDone (env.deInit m.calls.deInit) = true
      · simp only [ht, if_false, calls_emit, calls_millis, hd, if_true]
        refine ⟨_, rfl, ?_, ?_, ?_, ?_⟩ <;> cases hh : m.sessionStoppedHandler <;>
        simp [teardownTable, stopEpilogue, notifySessionStopped, hh,
          sessionState_setSessionState, hv, ht, hd]
      · simp only [ht, if_false, calls_emit, calls_millis, hd]
        refine ⟨_, rfl, ?_, ?_, ?_, ?_⟩ <;> cases hh : m.sessionStoppedHandler <;>
        simp [teardownTable, stopEpilogue, notifySessionStopped, hh,
          sessionState_setSessionState, hv, ht, hd]
  | Started =>
    have hloop := stopLoop_Started env (find m bleDev) (millis env m).1 n
      (emit (millis env m).2 Event.semaphoreTake) (by simpa using hv) (by simpa using hs)
    have hl2 : lateAt env m 2 = decide (timeoutMs < elapsed
        (millis env (setSessionState (stop env (millis env (emit (millis env m).2
          Event.semaphoreTake)).2).2 (find m bleDev) SessionState.notStarted)).1
        (millis env m).1) := by
      simp only [lateAt, fst_millis, calls_setSessionState, calls_stop, calls_millis, calls_emit]
    simp only [handleStopSession, hs, reduceCtorEq, if_false, hloop, teardownOutcome, hl1, hl2]
    by_cases ht : timeoutMs < elapsed
      (millis env (emit (millis env m).2 Event.semaphoreTake)).1 (millis env m).1
    · simp only [ht, if_true]
      refine ⟨_, rfl, ?_, ?_, ?_, ?_⟩ <;> cases hh : m.sessionStoppedHandler <;>
        simp [teardownTable, stopEpilogue, notifySessionStopped, hh,
          sessionState_setSessionState, hv, ht]
    · by_cases hp : isDone (env.stop m.calls.stop) = true
      · by_cases ht2 : timeoutMs < elapsed
          (millis env (setSessionState (stop env (millis env (emit (millis env m).2
            Event.semaphoreTake)).2).2 (find m bleDev) SessionState.notStarted)).1
          (millis env m).1
        · simp only [ht, if_false, calls_emit, calls_millis, hp, if_true, ht2]
          refine ⟨_, rfl, ?_, ?_, ?_, ?_⟩ <;> cases hh : m.sessionStoppedHandler <;>
        simp [teardownTable, stopEpilogue, notifySessionStopped, hh,
          sessionState_setSessionState, hv, ht, hp, ht2]
        · by_cases hd : isDone (env.deInit m.calls.deInit) = true
          · simp only [ht, if_false, calls_emit, calls_millis, hp, if_true, ht2, hd]
            refine ⟨_, rfl, ?_, ?_, ?_, ?_⟩ <;> cases hh : m.sessionStoppedHandler <;>
        simp [teardownTable, stopEpilogue, notifySessionStopped, hh,
          sessionState_setSessionState, hv, ht, hp, ht2, hd]
          · simp only [ht, if_false, calls_emit, calls_millis, hp, if_true, ht2, hd]
            refine ⟨_, rfl, ?_, ?_, ?_, ?_⟩ <;> cases hh : m.sessionStoppedHandler <;>
        simp [teardownTable, stopEpilogue, notifySessionStopped, hh,
          sessionState_setSessionState, hv, ht, hp, ht2, hd]
      · simp only [ht, if_false, calls_emit, calls_millis, hp]
        refine ⟨_, rfl, ?_, ?_, ?_, ?_⟩ <;> cases hh : m.sessionStoppedHandler <;>
        simp [teardownTable, stopEpilogue, notifySessionStopped, hh,
          sessionState_setSessionState, hv, ht, hp]
  | other v =>
    have hloop := stopLoop_other env (find m bleDev) (millis env m).1 (n + 2) 0
      (emit (millis env m).2 Event.semaphoreTake) (by omega) v (by simpa using hs)
    simp only [handleStopSession, hs, reduceCtorEq, if_false, hloop, teardownOutcome, hl1]
    by_cases ht : timeoutMs < elapsed
      (millis env (emit (millis env m).2 Event.semaphoreTake)).1 (millis env m).1
    · simp only [ht, if_true]
      refine ⟨_, rfl, ?_, ?_, ?_, ?_⟩ <;> cases hh : m.sessionStoppedHandler <;>
        simp [teardownTable, stopEpilogue, notifySessionStopped, hh,
          sessionState_setSessionState, hv, ht]
    · simp only [ht, if_false]
      refine ⟨_, rfl, ?_, ?_, ?_, ?_⟩ <;> cases hh : m.sessionStoppedHandler <;>
        simp [teardownTable, stopEpilogue, notifySessionStopped, hh,
          sessionState_setSessionState, hv, ht]


/-! ## Lemmas: the outcome table -/

theorem teardownTable_count_reset (s0 : SessionState) (late1 late2 stopOk deInitOk : Bool) :
    (teardownTable s0 late1 late2 stopOk deInitOk).2.count Event.reset =
      if (teardownTable s0 late1 late2 stopOk deInitOk).1 then 0 else 1 := by
  cases s0 <;> cases late1 <;> cases late2 <;> cases stopOk <;> cases deInitOk <;>
    simp [teardownTable]

theorem teardownTable_no_hook (s0 : SessionState) (late1 late2 stopOk deInitOk : Bool)
    (d : BLEDevice) :
    Event.sessionStopped d ∉ (teardownTable s0 late1 late2 stopOk deInitOk).2 := by
  cases s0 <;> cases late1 <;> cases late2 <;> cases stopOk <;> cases deInitOk <;>
    simp [teardownTable]

theorem teardownTable_no_write (s0 : SessionState) (late1 late2 stopOk deInitOk : Bool) :
    (teardownTable s0 late1 late2 stopOk deInitOk).2.filter isWrite = [] := by
  cases s0 <;> cases late1 <;> cases late2 <;> cases stopOk <;> cases deInitOk <;>
    simp [teardownTable, isWrite]

theorem isDone_iff (operation : Status) :
    isDone operation = true ↔
      operation = Status.SUCCESS ∨ operation = Status.SESSION_NOT_EXIST := by
  simp [isDone]

/-! ## Teardown: handleStopSession -/

/-- C1: whatever the state of the resolved record on entry (also a value that
is none of the three enumerators), whatever the radio answers and whatever the
clock reads, `handleStopSession` returns (three units of loop fuel are always
enough) and on return the record of the peer is in state `notCreated`; the
peer still resolves to the same record. -/
theorem handleStopSession_terminates_notCreated (env : Env) (fuel : Nat)
    (m : NearbySessionManager) (bleDev : BLEDevice) (hf : 3 ≤ fuel) :
    ∃ status m', handleStopSession env fuel m bleDev = Except.ok (status, m') ∧
      find m' bleDev = find m bleDev ∧
      (deref m' (find m' bleDev)).sessionState = SessionState.notCreated := by
  obtain ⟨p, hrun, _, _, hstate, hfind⟩ := handleStopSession_outcome env fuel m bleDev hf
  exact ⟨p.1, p.2, hrun, hfind, by rw [hfind]; exact hstate⟩

/-- Witness for C1: a record in the unrecognised state `other 7`, a radio
that always fails. -/
theorem handleStopSession_terminates_notCreated_witness :
    3 ≤ 3 ∧
    ∃ status m', handleStopSession (sampleEnv Status.FAILED) 3
        (sampleManager (SessionState.other 7) DeviceType.iOS) sampleDevice
          = Except.ok (status, m') ∧
      find m' sampleDevice
        = find (sampleManager (SessionState.other 7) DeviceType.iOS) sampleDevice ∧
      (deref m' (find m' sampleDevice)).sessionState = SessionState.notCreated :=
  ⟨by decide, handleStopSession_terminates_notCreated (sampleEnv Status.FAILED) 3
    (sampleManager (SessionState.other 7) DeviceType.iOS) sampleDevice (by decide)⟩

/-- C2: when the resolved record is `notCreated` on entry, `handleStopSession`
returns `true` and the manager it leaves is the one it found, but for the
history: the only new event is the session-stopped hook call with the peer,
made once when a hook is registered. No clock, semaphore or radio event
occurs, no call counter moves and no record changes; no loop fuel is used. -/
theorem handleStopSession_notCreated_shortcut (env : Env) (fuel : Nat)
    (m : NearbySessionManager) (bleDev : BLEDevice)
    (hs : (deref m (find m bleDev)).sessionState = SessionState.notCreated) :
    handleStopSession env fuel m bleDev =
      Except.ok (true, { m with trace := m.trace ++
        (if m.sessionStoppedHandler then [Event.sessionStopped bleDev] else []) }) := by
  unfold handleStopSession notifySessionStopped
  simp only [hs, if_true]
  split <;> simp [emit]

/-- Witness for C2: a `notCreated` record and a registered hook. -/
theorem handleStopSession_notCreated_shortcut_witness :
    (deref (sampleManager SessionState.notCreated DeviceType.iOS)
        (find (sampleManager SessionState.notCreated DeviceType.iOS) sampleDevice)).sessionState
      = SessionState.notCreated ∧
    handleStopSession (sampleEnv Status.FAILED) 0
        (sampleManager SessionState.notCreated DeviceType.iOS) sampleDevice =
      Except.ok (true, { sampleManager SessionState.notCreated DeviceType.iOS with
        trace := (sampleManager SessionState.notCreated DeviceType.iOS).trace ++
          (if (sampleManager SessionState.notCreated DeviceType.iOS).sessionStoppedHandler
            then [Event.sessionStopped sampleDevice] else []) }) :=
  ⟨by decide, handleStopSession_notCreated_shortcut (sampleEnv Status.FAILED) 0
    (sampleManager SessionState.notCreated DeviceType.iOS) sampleDevice (by decide)⟩

/-- C3: when neither timeout check fires, `handleStopSession` entered in state
`Started` returns `true` exactly when the `stop` call answers `SUCCESS` or
`SESSION_NOT_EXIST` and the `deInit` call after it answers `SUCCESS` or
`SESSION_NOT_EXIST`; entered in state `notStarted` it returns `true` exactly
when `deInit` answers one of these two, whatever `stop` answers. -/
theorem handleStopSession_status_without_timeout (env : Env) (fuel : Nat)
    (m : NearbySessionManager) (bleDev : BLEDevice) (hf : 3 ≤ fuel)
    (h1 : elapsed (env.millis (m.calls.millis + 1) % 2 ^ 32) (env.millis m.calls.millis % 2 ^ 32)
      ≤ timeoutMs)
    (h2 : elapsed (env.millis (m.calls.millis + 2) % 2 ^ 32) (env.millis m.calls.millis % 2 ^ 32)
      ≤ timeoutMs) :
    ∃ status m', handleStopSession env fuel m bleDev = Except.ok (status, m') ∧
      ((deref m (find m bleDev)).sessionState = SessionState.Started →
        (status = true ↔
          (env.stop m.calls.stop = Status.SUCCESS ∨
            env.stop m.calls.stop = Status.SESSION_NOT_EXIST) ∧
          (env.deInit m.calls.deInit = Status.SUCCESS ∨
            env.deInit m.calls.deInit = Status.SESSION_NOT_EXIST))) ∧
      ((deref m (find m bleDev)).sessionState = SessionState.notStarted →
        (status = true ↔
          (env.deInit m.calls.deInit = Status.SUCCESS ∨
            env.deInit m.calls.deInit = Status.SESSION_NOT_EXIST))) := by
  obtain ⟨p, hrun, hstatus, _, _, _⟩ := handleStopSession_outcome env fuel m bleDev hf
  have hl1 : lateAt env m 1 = false := by
    simp only [lateAt, decide_eq_false_iff_not, not_lt]; exact h1
  have hl2 : lateAt env m 2 = false := by
    simp only [lateAt, decide_eq_false_iff_not, not_lt]; exact h2
  refine ⟨p.1, p.2, hrun, ?_, ?_⟩
  · intro hs
    rw [hstatus, ← isDone_iff, ← isDone_iff]
    simp only [teardownOutcome, hs, hl1, hl2, teardownTable]
    cases isDone (env.stop m.calls.stop) <;> cases isDone (env.deInit m.calls.deInit) <;> simp
  · intro hs
    rw [hstatus, ← isDone_iff]
    simp only [teardownOutcome, hs, hl1, hl2, teardownTable]
    cases isDone (env.deInit m.calls.deInit) <;> simp

/-- Witness for C3: a `Started` record, a clock that stands still, a radio
answering `SESSION_NOT_EXIST`. -/
theorem handleStopSession_status_without_timeout_witness :
    3 ≤ 3 ∧
    elapsed ((sampleEnv Status.SESSION_NOT_EXIST).millis ((sampleManager SessionState.Started DeviceType.iOS).calls.millis + 1) % 2 ^ 32)
      ((sampleEnv Status.SESSION_NOT_EXIST).millis (sampleManager SessionState.Started DeviceType.iOS).calls.millis % 2 ^ 32) ≤ timeoutMs ∧
    elapsed ((sampleEnv Status.SESSION_NOT_EXIST).millis ((sampleManager SessionState.Started DeviceType.iOS).calls.millis + 2) % 2 ^ 32)
      ((sampleEnv Status.SESSION_NOT_EXIST).millis (sampleManager SessionState.Started DeviceType.iOS).calls.millis % 2 ^ 32) ≤ timeoutMs ∧
    ∃ status m', handleStopSession (sampleEnv Status.SESSION_NOT_EXIST) 3 (sampleManager SessionState.Started DeviceType.iOS) sampleDevice = Except.ok (status, m') ∧
      ((deref (sampleManager SessionState.Started DeviceType.iOS) (find (sampleManager SessionState.Started DeviceType.iOS) sampleDevice)).sessionState = SessionState.Started →
        (status = true ↔
          ((sampleEnv Status.SESSION_NOT_EXIST).stop (sampleManager SessionState.Started DeviceType.iOS).calls.stop = Status.SUCCESS ∨
            (sampleEnv Status.SESSION_NOT_EXIST).stop (sampleManager SessionState.Started DeviceType.iOS).calls.stop = Status.SESSION_NOT_EXIST) ∧
          ((sampleEnv Status.SESSION_NOT_EXIST).deInit (sampleManager SessionState.Started DeviceType.iOS).calls.deInit = Status.SUCCESS ∨
            (sampleEnv Status.SESSION_NOT_EXIST).deInit (sampleManager SessionState.Started DeviceType.iOS).calls.deInit = Status.SESSION_NOT_EXIST))) ∧
      ((deref (sampleManager SessionState.Started DeviceType.iOS) (find (sampleManager SessionState.Started DeviceType.iOS) sampleDevice)).sessionState = SessionState.notStarted →
        (status = true ↔
          ((sampleEnv Status.SESSION_NOT_EXIST).deInit (sampleManager SessionState.Started DeviceType.iOS).calls.deInit = Status.SUCCESS ∨
            (sampleEnv Status.SESSION_NOT_EXIST).deInit (sampleManager SessionState.Started DeviceType.iOS).calls.deInit = Status.SESSION_NOT_EXIST))) :=
  ⟨by decide, by decide, by decide,
    handleStopSession_status_without_timeout (sampleEnv Status.SESSION_NOT_EXIST) 3 (sampleManager SessionState.Started DeviceType.iOS) sampleDevice (by decide)
      (by decide) (by decide)⟩

/-- C4: the history that `handleStopSession` appends holds exactly one radio
`reset` when it returns `false` and none when it returns `true`. In
particular, entered in a state other than `notCreated` with a radio whose
`stop` and `deInit` always answer `FAILED`, it returns `false` after exactly
one `reset` and leaves the record `notCreated`. -/
theorem handleStopSession_reset_iff_failure (env : Env) (fuel : Nat)
    (m : NearbySessionManager) (bleDev : BLEDevice) (hf : 3 ≤ fuel) :
    ∃ status m' evs, handleStopSession env fuel m bleDev = Except.ok (status, m') ∧
      m'.trace = m.trace ++ evs ∧
      evs.count Event.reset = (if status then 0 else 1) ∧
      ((deref m (find m bleDev)).sessionState ≠ SessionState.notCreated →
        (∀ k, env.stop k = Status.FAILED) → (∀ k, env.deInit k = Status.FAILED) →
        status = false ∧ evs.count Event.reset = 1 ∧
          (deref m' (find m' bleDev)).sessionState = SessionState.notCreated) := by
  obtain ⟨p, hrun, hstatus, htrace, hstate, hfind⟩ :=
    handleStopSession_outcome env fuel m bleDev hf
  have hcount : ((teardownOutcome env m bleDev).2 ++
      (if m.sessionStoppedHandler then [Event.sessionStopped bleDev] else [])).count Event.reset
      = if p.1 then 0 else 1 := by
    rw [hstatus, List.count_append, teardownOutcome, teardownTable_count_reset]
    cases m.sessionStoppedHandler <;> simp
  refine ⟨p.1, p.2, _, hrun, by rw [htrace, List.append_assoc], hcount, ?_⟩
  intro hs hstop hdeinit
  have hfalse : p.1 = false := by
    rw [hstatus]
    simp only [teardownOutcome, hstop, hdeinit, isDone]
    cases hst : (deref m (find m bleDev)).sessionState <;>
      cases lateAt env m 1 <;> cases lateAt env m 2 <;> simp_all [teardownTable]
  refine ⟨hfalse, ?_, by rw [hfind]; exact hstate⟩
  rw [hcount, hfalse]; rfl

/-- Witness for C4: a `notStarted` record, a radio that always fails. -/
theorem handleStopSession_reset_iff_failure_witness :
    3 ≤ 3 ∧
    ∃ status m' evs, handleStopSession (sampleEnv Status.FAILED) 3 (sampleManager SessionState.notStarted DeviceType.iOS) sampleDevice = Except.ok (status, m') ∧
      m'.trace = (sampleManager SessionState.notStarted DeviceType.iOS).trace ++ evs ∧
      evs.count Event.reset = (if status then 0 else 1) ∧
      ((deref (sampleManager SessionState.notStarted DeviceType.iOS) (find (sampleManager SessionState.notStarted DeviceType.iOS) sampleDevice)).sessionState ≠ SessionState.notCreated →
        (∀ k, (sampleEnv Status.FAILED).stop k = Status.FAILED) → (∀ k, (sampleEnv Status.FAILED).deInit k = Status.FAILED) →
        status = false ∧ evs.count Event.reset = 1 ∧
          (deref m' (find m' sampleDevice)).sessionState = SessionState.notCreated) :=
  ⟨by decide, handleStopSession_reset_iff_failure (sampleEnv Status.FAILED) 3 (sampleManager SessionState.notStarted DeviceType.iOS) sampleDevice (by decide)⟩

/-- C5: with a session-stopped hook registered, every run of
`handleStopSession` (short-circuit, successful teardown, failed teardown with
reset) calls the hook exactly once, with the peer it was given, and as the
last event of the run, hence after every radio call. -/
theorem handleStopSession_hook_once_last (env : Env) (fuel : Nat)
    (m : NearbySessionManager) (bleDev : BLEDevice) (hf : 3 ≤ fuel)
    (hreg : m.sessionStoppedHandler = true) :
    ∃ status m' pre, handleStopSession env fuel m bleDev = Except.ok (status, m') ∧
      m'.trace = m.trace ++ pre ++ [Event.sessionStopped bleDev] ∧
      ∀ d, Event.sessionStopped d ∉ pre := by
  obtain ⟨p, hrun, _, htrace, _, _⟩ := handleStopSession_outcome env fuel m bleDev hf
  refine ⟨p.1, p.2, (teardownOutcome env m bleDev).2, hrun, ?_, ?_⟩
  · rw [htrace, hreg]; rfl
  · intro d
    exact teardownTable_no_hook _ _ _ _ _ d

/-- Witness for C5: a failed teardown from `notStarted`. -/
theorem handleStopSession_hook_once_last_witness :
    3 ≤ 3 ∧ (sampleManager SessionState.notStarted DeviceType.iOS).sessionStoppedHandler = true ∧
    ∃ status m' pre, handleStopSession (sampleEnv Status.FAILED) 3 (sampleManager SessionState.notStarted DeviceType.iOS) sampleDevice = Except.ok (status, m') ∧
      m'.trace = (sampleManager SessionState.notStarted DeviceType.iOS).trace ++ pre ++ [Event.sessionStopped sampleDevice] ∧
      ∀ d, Event.sessionStopped d ∉ pre :=
  ⟨by decide, rfl, handleStopSession_hook_once_last (sampleEnv Status.FAILED) 3 (sampleManager SessionState.notStarted DeviceType.iOS) sampleDevice (by decide) rfl⟩

/-! ## Lemmas: the dispatcher -/

theorem labels_ne (P : MsgIds) :
    P.kMsg_ConfigureAndStart ≠ P.kMsg_Initialize_iOS ∧
    P.kMsg_ConfigureAndStart ≠ P.kMsg_Initialize_Android ∧
    P.kMsg_ConfigureAndStart ≠ P.kMsg_Stop ∧
    P.kMsg_Initialize_iOS ≠ P.kMsg_Initialize_Android ∧
    P.kMsg_Initialize_iOS ≠ P.kMsg_Stop ∧
    P.kMsg_Initialize_Android ≠ P.kMsg_Stop := by
  have h := P.labels_nodup
  simp only [List.nodup_cons, List.mem_cons, List.mem_singleton, not_or, List.not_mem_nil,
    not_false_eq_true, List.nodup_nil, and_true] at h
  tauto

@[simp] theorem trace_writeValue (ch : Channel) (value : List Nat) (length : Int)
    (m : NearbySessionManager) :
    (writeValue ch value length m).trace = m.trace ++ [Event.writeValue ch value length] := rfl

@[simp] theorem deref_writeValue (ch : Channel) (value : List Nat) (length : Int)
    (m : NearbySessionManager) (r : SessionRef) :
    deref (writeValue ch value length m) r = deref m r := by
  cases r <;> rfl

@[simp] theorem trace_configIOS (env : Env) (r : SessionRef) (m : NearbySessionManager) :
    (configIOS env r m).2.trace = m.trace ++ [Event.configIOS] := by
  cases r <;> rfl

@[simp] theorem fst_configIOS (env : Env) (r : SessionRef) (m : NearbySessionManager) :
    (configIOS env r m).1 = (env.configIOS m.calls.configIOS (deref m r)).1 := rfl

theorem deref_configIOS (env : Env) (r : SessionRef) (m : NearbySessionManager)
    (h : validRef m r) :
    deref (configIOS env r m).2 r = (env.configIOS m.calls.configIOS (deref m r)).2 := by
  cases r with
  | empty => rfl
  | slot i =>
    simp only [validRef] at h
    simp [configIOS, deref, assign, emit, List.getD, h]

@[simp] theorem trace_configAndroid (env : Env) (r : SessionRef) (m : NearbySessionManager) :
    (configAndroid env r m).2.trace = m.trace ++ [Event.configAndroid] := by
  cases r <;> rfl

@[simp] theorem fst_configAndroid (env : Env) (r : SessionRef) (m : NearbySessionManager) :
    (configAndroid env r m).1 = (env.configAndroid m.calls.configAndroid (deref m r)).1 := rfl

@[simp] theorem trace_startAndroid (env : Env) (r : SessionRef) (data : Nat → Nat)
    (m : NearbySessionManager) :
    (startAndroid env r data m).2.trace = m.trace ++ [Event.startAndroid] := by
  cases r <;> rfl

@[simp] theorem fst_startAndroid (env : Env) (r : SessionRef) (data : Nat → Nat)
    (m : NearbySessionManager) :
    (startAndroid env r data m).1 = (env.startAndroid m.calls.startAndroid (deref m r) data).1 :=
  rfl

theorem deref_setSessionState (m : NearbySessionManager) (r : SessionRef) (v : SessionState)
    (h : validRef m r) :
    deref (setSessionState m r v) r = { deref m r with sessionState := v } := by
  simp [setSessionState, deref_assign, h]

/-! ## Command dispatch: handleTLV -/

/-- C6: for every session state and every radio behaviour, `handleTLV` on a
message whose opcode is `kMsg_Stop` returns, and the only write among the
events it appends is one `writeValue` on `txCharacteristic` of the single byte
`kRsp_UwbDidStop`; nothing is written to `accessoryConfigDataChar`. This does
not depend on what `handleStopSession` returned. -/
theorem handleTLV_Stop_response (P : MsgIds) (env : Env) (fuel : Nat)
    (m : NearbySessionManager) (bleDev : BLEDevice) (data : Nat → Nat) (hf : 3 ≤ fuel)
    (hop : data 0 = P.kMsg_Stop) :
    ∃ m' evs, handleTLV P env fuel m bleDev (some data) = Except.ok m' ∧
      m'.trace = m.trace ++ evs ∧
      evs.filter isWrite = [Event.writeValue Channel.txCharacteristic [P.kRsp_UwbDidStop] 1] := by
  obtain ⟨h1, h2, h3, h4, h5, h6⟩ := labels_ne P
  obtain ⟨p, hrun, _, htrace, _, _⟩ := handleStopSession_outcome env fuel m bleDev hf
  refine ⟨writeResponse P.kRsp_UwbDidStop p.2,
    (teardownOutcome env m bleDev).2 ++
      (if m.sessionStoppedHandler then [Event.sessionStopped bleDev] else []) ++
      [Event.writeValue Channel.txCharacteristic [P.kRsp_UwbDidStop] 1], ?_, ?_, ?_⟩
  · simp [handleTLV, hop, Ne.symm h3, Ne.symm h5, Ne.symm h6, caseStop, hrun]
  · simp [writeResponse, htrace]
  · simp only [List.filter_append, teardownOutcome, teardownTable_no_write]
    cases m.sessionStoppedHandler <;> simp [isWrite]

/-- Witness for C6: a stop message for a `Started` session whose teardown
fails. -/
theorem handleTLV_Stop_response_witness :
    3 ≤ 3 ∧ sampleData 0x0C 0 = sampleIds.kMsg_Stop ∧
    ∃ m' evs, handleTLV sampleIds (sampleEnv Status.FAILED) 3 (sampleManager SessionState.Started DeviceType.iOS) sampleDevice (some (sampleData 0x0C))
        = Except.ok m' ∧
      m'.trace = (sampleManager SessionState.Started DeviceType.iOS).trace ++ evs ∧
      evs.filter isWrite
        = [Event.writeValue Channel.txCharacteristic [sampleIds.kRsp_UwbDidStop] 1] :=
  ⟨by decide, rfl, handleTLV_Stop_response sampleIds (sampleEnv Status.FAILED) 3 (sampleManager SessionState.Started DeviceType.iOS) sampleDevice (sampleData 0x0C)
    (by decide) rfl⟩

/-- C7, as the code behaves: for a record whose `deviceType` is `Android`,
`handleTLV` on a `kMsg_ConfigureAndStart` message whose `startAndroid` answers
`SUCCESS` appends the start call and then two `writeValue` events of the byte
`kRsp_UwbDidStart` on `txCharacteristic`: one from the success arm, one from
the unconditional block after the `if`/`else`. -/
theorem handleTLV_ConfigureAndStart_Android_success (P : MsgIds) (env : Env) (fuel : Nat)
    (m : NearbySessionManager) (bleDev : BLEDevice) (data : Nat → Nat)
    (hop : data 0 = P.kMsg_ConfigureAndStart)
    (hdev : (deref m (find m bleDev)).deviceType = DeviceType.Android)
    (hok : (env.startAndroid m.calls.startAndroid (startArg m bleDev) data).1 = Status.SUCCESS) :
    ∃ m', handleTLV P env fuel m bleDev (some data) = Except.ok m' ∧
      m'.trace = m.trace ++ [Event.startAndroid,
        Event.writeValue Channel.txCharacteristic [P.kRsp_UwbDidStart] 1,
        Event.writeValue Channel.txCharacteristic [P.kRsp_UwbDidStart] 1] := by
  have hv := validRef_find m bleDev
  have hrec : deref (setSessionState m (find m bleDev) SessionState.notStarted) (find m bleDev)
      = startArg m bleDev := deref_setSessionState m (find m bleDev) SessionState.notStarted hv
  have hdev' : (startArg m bleDev).deviceType = DeviceType.Android := hdev
  refine ⟨_, by simp only [handleTLV, hop, if_true]; rfl, ?_⟩
  simp only [caseConfigureAndStart, hrec, hdev', if_true, fst_startAndroid,
    calls_setSessionState, hok]
  simp [writeResponse]

/-- Witness for C7: an `Android` record and a start that succeeds. -/
theorem handleTLV_ConfigureAndStart_Android_success_witness :
    sampleData 0x0B 0 = sampleIds.kMsg_ConfigureAndStart ∧
    (deref (sampleManager SessionState.notCreated DeviceType.Android) (find (sampleManager SessionState.notCreated DeviceType.Android) sampleDevice)).deviceType = DeviceType.Android ∧
    ((sampleEnv Status.SUCCESS).startAndroid (sampleManager SessionState.notCreated DeviceType.Android).calls.startAndroid (startArg (sampleManager SessionState.notCreated DeviceType.Android) sampleDevice)
      (sampleData 0x0B)).1 = Status.SUCCESS ∧
    ∃ m', handleTLV sampleIds (sampleEnv Status.SUCCESS) 3 (sampleManager SessionState.notCreated DeviceType.Android) sampleDevice (some (sampleData 0x0B))
        = Except.ok m' ∧
      m'.trace = (sampleManager SessionState.notCreated DeviceType.Android).trace ++ [Event.startAndroid,
        Event.writeValue Channel.txCharacteristic [sampleIds.kRsp_UwbDidStart] 1,
        Event.writeValue Channel.txCharacteristic [sampleIds.kRsp_UwbDidStart] 1] :=
  ⟨rfl, rfl, rfl, handleTLV_ConfigureAndStart_Android_success sampleIds (sampleEnv Status.SUCCESS) 3 (sampleManager SessionState.notCreated DeviceType.Android)
    sampleDevice (sampleData 0x0B) rfl rfl rfl⟩

theorem take_drop_one (l : List Nat) (n : Nat) (h : 1 ≤ n) :
    (l.drop 1).take (n - 1) = (l.take n).drop 1 := by
  obtain ⟨k, rfl⟩ : ∃ k, n = k + 1 := ⟨n - 1, by omega⟩
  cases l <;> simp

/-- C8: for `handleTLV` on a `kMsg_Initialize_iOS` message whose `configIOS`
answers `SUCCESS`, with `config()` and `configLen()` read from the record as
the build leaves it: if `shouldUpdateAccessory()` holds, exactly two writes
follow the build, first `writeValue(config + 1, configLen - 1)` on
`accessoryConfigDataChar`, then `writeValue(config, configLen)` on
`txCharacteristic`; if not, the only write is `writeValue(config, configLen)`
on `txCharacteristic`. For a payload of `n = configLen ≥ 1` bytes lying in the
buffer, the first write carries the `n - 1` bytes `payload[1..n)` and the
second the `n` bytes `payload[0..n)`. -/
theorem handleTLV_Initialize_iOS_writes (P : MsgIds) (env : Env) (fuel : Nat)
    (m : NearbySessionManager) (bleDev : BLEDevice) (data : Nat → Nat)
    (hop : data 0 = P.kMsg_Initialize_iOS)
    (hok : (env.configIOS m.calls.configIOS (deref m (find m bleDev))).1 = Status.SUCCESS) :
    ∃ m', handleTLV P env fuel m bleDev (some data) = Except.ok m' ∧
      m'.trace = m.trace ++ Event.configIOS ::
        (if (builtIOS env m bleDev).shouldUpdateAccessory then
          [Event.writeValue Channel.accessoryConfigDataChar
              ((builtIOS env m bleDev).config.drop 1)
              (((builtIOS env m bleDev).configLen : Int) - 1),
            Event.writeValue Channel.txCharacteristic (builtIOS env m bleDev).config
              ((builtIOS env m bleDev).configLen : Int)]
        else
          [Event.writeValue Channel.txCharacteristic (builtIOS env m bleDev).config
              ((builtIOS env m bleDev).configLen : Int)]) ∧
      (∀ n, (builtIOS env m bleDev).configLen = n → 1 ≤ n →
        n ≤ (builtIOS env m bleDev).config.length →
        sent ((builtIOS env m bleDev).config.drop 1) ((n : Int) - 1)
          = ((builtIOS env m bleDev).config.take n).drop 1 ∧
        (sent ((builtIOS env m bleDev).config.drop 1) ((n : Int) - 1)).length = n - 1 ∧
        sent (builtIOS env m bleDev).config (n : Int) = (builtIOS env m bleDev).config.take n ∧
        (sent (builtIOS env m bleDev).config (n : Int)).length = n) := by
  obtain ⟨h1, _, _, _, _, _⟩ := labels_ne P
  have hv := validRef_find m bleDev
  have hrec : deref (configIOS env (find m bleDev) m).2 (find m bleDev) = builtIOS env m bleDev :=
    deref_configIOS env (find m bleDev) m hv
  refine ⟨_, by simp only [handleTLV, hop, Ne.symm h1, if_true, if_false]; rfl, ?_, ?_⟩
  · simp only [caseInitialize_iOS, fst_configIOS, hok, if_true, hrec, deref_writeValue]
    cases (builtIOS env m bleDev).shouldUpdateAccessory <;> simp
  · intro n _ hn hlen
    have hcast : ((n : Int) - 1).toNat = n - 1 := by omega
    refine ⟨?_, ?_, ?_, ?_⟩
    · simp only [sent, hcast]; exact take_drop_one _ n hn
    · simp only [sent, hcast, List.length_take, List.length_drop]; omega
    · simp [sent]
    · simp only [sent, Int.toNat_ofNat, List.length_take]; omega

/-- Witness for C8: the accessory-update flag set and a ten-byte payload; the
events are a nine-byte write on the accessory channel, then a ten-byte write
on the primary channel. -/
theorem handleTLV_Initialize_iOS_writes_witness :
    sampleData 0x0A 0 = sampleIds.kMsg_Initialize_iOS ∧
    ((sampleEnv Status.SUCCESS).configIOS (sampleManager SessionState.notCreated DeviceType.iOS).calls.configIOS (deref (sampleManager SessionState.notCreated DeviceType.iOS) (find (sampleManager SessionState.notCreated DeviceType.iOS) sampleDevice))).1
      = Status.SUCCESS ∧
    ∃ m', handleTLV sampleIds (sampleEnv Status.SUCCESS) 3 (sampleManager SessionState.notCreated DeviceType.iOS) sampleDevice (some (sampleData 0x0A))
        = Except.ok m' ∧
      m'.trace = (sampleManager SessionState.notCreated DeviceType.iOS).trace ++ Event.configIOS ::
        (if (builtIOS (sampleEnv Status.SUCCESS) (sampleManager SessionState.notCreated DeviceType.iOS) sampleDevice).shouldUpdateAccessory then
          [Event.writeValue Channel.accessoryConfigDataChar
              ((builtIOS (sampleEnv Status.SUCCESS) (sampleManager SessionState.notCreated DeviceType.iOS) sampleDevice).config.drop 1)
              (((builtIOS (sampleEnv Status.SUCCESS) (sampleManager SessionState.notCreated DeviceType.iOS) sampleDevice).configLen : Int) - 1),
            Event.writeValue Channel.txCharacteristic (builtIOS (sampleEnv Status.SUCCESS) (sampleManager SessionState.notCreated DeviceType.iOS) sampleDevice).config
              ((builtIOS (sampleEnv Status.SUCCESS) (sampleManager SessionState.notCreated DeviceType.iOS) sampleDevice).configLen : Int)]
        else
          [Event.writeValue Channel.txCharacteristic (builtIOS (sampleEnv Status.SUCCESS) (sampleManager SessionState.notCreated DeviceType.iOS) sampleDevice).config
              ((builtIOS (sampleEnv Status.SUCCESS) (sampleManager SessionState.notCreated DeviceType.iOS) sampleDevice).configLen : Int)]) ∧
      (∀ n, (builtIOS (sampleEnv Status.SUCCESS) (sampleManager SessionState.notCreated DeviceType.iOS) sampleDevice).configLen = n → 1 ≤ n →
        n ≤ (builtIOS (sampleEnv Status.SUCCESS) (sampleManager SessionState.notCreated DeviceType.iOS) sampleDevice).config.length →
        sent ((builtIOS (sampleEnv Status.SUCCESS) (sampleManager SessionState.notCreated DeviceType.iOS) sampleDevice).config.drop 1) ((n : Int) - 1)
          = ((builtIOS (sampleEnv Status.SUCCESS) (sampleManager SessionState.notCreated DeviceType.iOS) sampleDevice).config.take n).drop 1 ∧
        (sent ((builtIOS (sampleEnv Status.SUCCESS) (sampleManager SessionState.notCreated DeviceType.iOS) sampleDevice).config.drop 1) ((n : Int) - 1)).length
          = n - 1 ∧
        sent (builtIOS (sampleEnv Status.SUCCESS) (sampleManager SessionState.notCreated DeviceType.iOS) sampleDevice).config (n : Int)
          = (builtIOS (sampleEnv Status.SUCCESS) (sampleManager SessionState.notCreated DeviceType.iOS) sampleDevice).config.take n ∧
        (sent (builtIOS (sampleEnv Status.SUCCESS) (sampleManager SessionState.notCreated DeviceType.iOS) sampleDevice).config (n : Int)).length = n) :=
  ⟨rfl, rfl, handleTLV_Initialize_iOS_writes sampleIds (sampleEnv Status.SUCCESS) 3 (sampleManager SessionState.notCreated DeviceType.iOS) sampleDevice
    (sampleData 0x0A) rfl rfl⟩

/-- C9: for both configuration messages, when the build (`configIOS`, resp.
`configAndroid`) answers a status other than `SUCCESS`, `handleTLV` appends
the build call and nothing else: no write on `txCharacteristic` and none on
`accessoryConfigDataChar`. -/
theorem handleTLV_Initialize_build_failure (P : MsgIds) (env : Env) (fuel : Nat)
    (m : NearbySessionManager) (bleDev : BLEDevice) (data : Nat → Nat) :
    (data 0 = P.kMsg_Initialize_iOS →
      (env.configIOS m.calls.configIOS (deref m (find m bleDev))).1 ≠ Status.SUCCESS →
      ∃ m', handleTLV P env fuel m bleDev (some data) = Except.ok m' ∧
        m'.trace = m.trace ++ [Event.configIOS]) ∧
    (data 0 = P.kMsg_Initialize_Android →
      (env.configAndroid m.calls.configAndroid (deref m (find m bleDev))).1 ≠ Status.SUCCESS →
      ∃ m', handleTLV P env fuel m bleDev (some data) = Except.ok m' ∧
        m'.trace = m.trace ++ [Event.configAndroid]) := by
  obtain ⟨h1, h2, _, h4, _, _⟩ := labels_ne P
  constructor
  · intro hop hfail
    refine ⟨_, by simp only [handleTLV, hop, Ne.symm h1, if_true, if_false]; rfl, ?_⟩
    simp [caseInitialize_iOS, hfail]
  · intro hop hfail
    refine ⟨_, by simp only [handleTLV, hop, Ne.symm h2, Ne.symm h4, if_true, if_false]; rfl, ?_⟩
    simp [caseInitialize_Android, hfail]

/-- Witness for C9: both builds answering `FAILED`. -/
theorem handleTLV_Initialize_build_failure_witness :
    (sampleData 0x0A 0 = sampleIds.kMsg_Initialize_iOS ∧
      ((sampleEnv Status.FAILED).configIOS (sampleManager SessionState.notCreated DeviceType.iOS).calls.configIOS (deref (sampleManager SessionState.notCreated DeviceType.iOS) (find (sampleManager SessionState.notCreated DeviceType.iOS) sampleDevice))).1
        ≠ Status.SUCCESS ∧
      ∃ m', handleTLV sampleIds (sampleEnv Status.FAILED) 3 (sampleManager SessionState.notCreated DeviceType.iOS) sampleDevice (some (sampleData 0x0A))
          = Except.ok m' ∧
        m'.trace = (sampleManager SessionState.notCreated DeviceType.iOS).trace ++ [Event.configIOS]) ∧
    (sampleData 0xA5 0 = sampleIds.kMsg_Initialize_Android ∧
      ((sampleEnv Status.FAILED).configAndroid (sampleManager SessionState.notCreated DeviceType.Android).calls.configAndroid (deref (sampleManager SessionState.notCreated DeviceType.Android) (find (sampleManager SessionState.notCreated DeviceType.Android) sampleDevice))).1
        ≠ Status.SUCCESS ∧
      ∃ m', handleTLV sampleIds (sampleEnv Status.FAILED) 3 (sampleManager SessionState.notCreated DeviceType.Android) sampleDevice (some (sampleData 0xA5))
          = Except.ok m' ∧
        m'.trace = (sampleManager SessionState.notCreated DeviceType.Android).trace ++ [Event.configAndroid]) :=
  ⟨⟨rfl, by decide,
      (handleTLV_Initialize_build_failure sampleIds (sampleEnv Status.FAILED) 3 (sampleManager SessionState.notCreated DeviceType.iOS) sampleDevice
        (sampleData 0x0A)).1 rfl (by decide)⟩,
    ⟨rfl, by decide,
      (handleTLV_Initialize_build_failure sampleIds (sampleEnv Status.FAILED) 3 (sampleManager SessionState.notCreated DeviceType.Android) sampleDevice
        (sampleData 0xA5)).2 rfl (by decide)⟩⟩

/-- C10, as the code behaves: the `NULL` test of `handleTLV` only logs and
does not return; with a null `data` the function goes on to resolve the record
and to evaluate `data[0]`, a read through the null pointer. -/
theorem handleTLV_null_dereferences (P : MsgIds) (env : Env) (fuel : Nat)
    (m : NearbySessionManager) (bleDev : BLEDevice) :
    handleTLV P env fuel m bleDev none = Except.error Fault.nullDereference := rfl

/-! ## Registry: addSession and the connect handler -/

/-- C11: when the table already holds `maxSessions` records, `addSession`
returns `false` and hands back the manager as it was (same `numSessions`, same
entries); when it holds fewer, `addSession` returns `true`, `numSessions`
grows by one, the new record (the default record carrying the identifier, type
and address of the argument) sits at the former index `numSessions`, and every
earlier entry is as before. -/
theorem addSession_capacity (D : Decls) (m : NearbySessionManager) (sess : NearbySession) :
    (D.maxSessions ≤ numSessions m → addSession D m sess = (false, m)) ∧
    (numSessions m < D.maxSessions →
      (addSession D m sess).1 = true ∧
      numSessions (addSession D m sess).2 = numSessions m + 1 ∧
      (addSession D m sess).2.sessions[numSessions m]? =
        some { D.newSession with
          sessionID := sess.sessionID, sessionType := sess.sessionType,
          bleAddress := sess.bleAddress } ∧
      ∀ j, j < numSessions m → (addSession D m sess).2.sessions[j]? = m.sessions[j]?) := by
  constructor
  · intro hfull
    simp [addSession, hfull]
  · intro hroom
    simp only [numSessions] at hroom
    have hnot : ¬ D.maxSessions ≤ m.sessions.length := by omega
    simp only [addSession, numSessions, ge_iff_le, hnot, if_false, List.length_append,
      List.length_singleton, true_and]
    refine ⟨?_, fun j hj => ?_⟩
    · simp
    · simp [List.getElem?_append_left, hj]

/-- Witness for C11: a full table of capacity one, and the same table with
capacity two. -/
theorem addSession_capacity_witness :
    ((sampleDecls 1).maxSessions ≤ numSessions (sampleManager SessionState.Started DeviceType.iOS) ∧ addSession (sampleDecls 1) (sampleManager SessionState.Started DeviceType.iOS) (sampleSession SessionState.notCreated DeviceType.Android) = (false, (sampleManager SessionState.Started DeviceType.iOS))) ∧
    (numSessions (sampleManager SessionState.Started DeviceType.iOS) < (sampleDecls 2).maxSessions ∧
      (addSession (sampleDecls 2) (sampleManager SessionState.Started DeviceType.iOS) (sampleSession SessionState.notCreated DeviceType.Android)).1 = true ∧
      numSessions (addSession (sampleDecls 2) (sampleManager SessionState.Started DeviceType.iOS) (sampleSession SessionState.notCreated DeviceType.Android)).2 = numSessions (sampleManager SessionState.Started DeviceType.iOS) + 1 ∧
      (addSession (sampleDecls 2) (sampleManager SessionState.Started DeviceType.iOS) (sampleSession SessionState.notCreated DeviceType.Android)).2.sessions[numSessions (sampleManager SessionState.Started DeviceType.iOS)]? =
        some { (sampleDecls 2).newSession with
          sessionID := (sampleSession SessionState.notCreated DeviceType.Android).sessionID,
          sessionType := (sampleSession SessionState.notCreated DeviceType.Android).sessionType,
          bleAddress := (sampleSession SessionState.notCreated DeviceType.Android).bleAddress } ∧
      ∀ j, j < numSessions (sampleManager SessionState.Started DeviceType.iOS) →
        (addSession (sampleDecls 2) (sampleManager SessionState.Started DeviceType.iOS) (sampleSession SessionState.notCreated DeviceType.Android)).2.sessions[j]? = (sampleManager SessionState.Started DeviceType.iOS).sessions[j]?) :=
  ⟨⟨by decide, (addSession_capacity (sampleDecls 1) (sampleManager SessionState.Started DeviceType.iOS) (sampleSession SessionState.notCreated DeviceType.Android)).1 (by decide)⟩,
    ⟨by decide, (addSession_capacity (sampleDecls 2) (sampleManager SessionState.Started DeviceType.iOS) (sampleSession SessionState.notCreated DeviceType.Android)).2 (by decide)⟩⟩

theorem findFrom_append_found (addr : Nat) (l : List NearbySession) (x : NearbySession)
    (k i : Nat) (h : findFrom addr l k = SessionRef.slot i) :
    findFrom addr (l ++ [x]) k = SessionRef.slot i := by
  induction l generalizing k with
  | nil => simp [findFrom] at h
  | cons s rest ih =>
    simp only [findFrom, List.cons_append] at h ⊢
    split
    · rename_i hs; simpa [hs] using h
    · rename_i hs; simp only [hs, if_false] at h; exact ih (k + 1) h

@[simp] theorem sessions_emit (m : NearbySessionManager) (e : Event) :
    (emit m e).sessions = m.sessions := rfl

/-- C12, as the code behaves: `addSession` does not look for an existing
record of the peer. For a peer that already has a record, a further connect
event on a table that is not full appends a second record with the peer's
address, so `numSessions` grows by one, and `find` keeps resolving the peer
to its earlier record; only on a full table does `numSessions` stay as it
was. -/
theorem blePeripheralConnectHandler_appends (D : Decls) (m : NearbySessionManager)
    (central : BLEDevice) (i : Nat) (hfound : find m central = SessionRef.slot i)
    (haddr : (D.sessionOf central).bleAddress = central.address) :
    (numSessions m < D.maxSessions →
      (∃ s, (blePeripheralConnectHandler D m central).sessions = m.sessions ++ [s] ∧
        s.bleAddress = central.address) ∧
      numSessions (blePeripheralConnectHandler D m central) = numSessions m + 1 ∧
      find (blePeripheralConnectHandler D m central) central = SessionRef.slot i) ∧
    (D.maxSessions ≤ numSessions m →
      (blePeripheralConnectHandler D m central).sessions = m.sessions) := by
  constructor
  · intro hroom
    simp only [numSessions] at hroom
    have hnot : ¬ D.maxSessions ≤ m.sessions.length := by omega
    have hadd : (blePeripheralConnectHandler D m central).sessions = m.sessions ++
        [{ D.newSession with
            sessionID := (D.sessionOf central).sessionID,
            sessionType := (D.sessionOf central).sessionType,
            bleAddress := (D.sessionOf central).bleAddress }] := by
      simp only [blePeripheralConnectHandler, addSession, numSessions, ge_iff_le, hnot, if_false]
      split <;> rfl
    refine ⟨⟨_, hadd, haddr⟩, ?_, ?_⟩
    · simp [numSessions, hadd]
    · simp only [find, hadd]
      exact findFrom_append_found _ _ _ _ _ hfound
  · intro hfull
    simp only [numSessions] at hfull
    simp only [blePeripheralConnectHandler, addSession, numSessions, ge_iff_le, hfull, if_true]
    split <;> rfl

/-- Witness for C12: the peer with address 42 connects while it already has
a record. -/
theorem blePeripheralConnectHandler_appends_witness :
    find (blePeripheralConnectHandler (sampleDecls 4) emptyManager sampleDevice) sampleDevice = SessionRef.slot 0 ∧
    ((sampleDecls 4).sessionOf sampleDevice).bleAddress = sampleDevice.address ∧
    numSessions (blePeripheralConnectHandler (sampleDecls 4) emptyManager sampleDevice) < (sampleDecls 4).maxSessions ∧
    (∃ s, (blePeripheralConnectHandler (sampleDecls 4) (blePeripheralConnectHandler (sampleDecls 4) emptyManager sampleDevice) sampleDevice).sessions
        = (blePeripheralConnectHandler (sampleDecls 4) emptyManager sampleDevice).sessions ++ [s] ∧ s.bleAddress = sampleDevice.address) ∧
    numSessions (blePeripheralConnectHandler (sampleDecls 4) (blePeripheralConnectHandler (sampleDecls 4) emptyManager sampleDevice) sampleDevice) = numSessions (blePeripheralConnectHandler (sampleDecls 4) emptyManager sampleDevice) + 1 ∧
    find (blePeripheralConnectHandler (sampleDecls 4) (blePeripheralConnectHandler (sampleDecls 4) emptyManager sampleDevice) sampleDevice) sampleDevice = SessionRef.slot 0 :=
  ⟨by decide, rfl, by decide,
    (blePeripheralConnectHandler_appends (sampleDecls 4) (blePeripheralConnectHandler (sampleDecls 4) emptyManager sampleDevice) sampleDevice 0 (by decide) rfl).1
      (by decide)⟩

/-- Counterexample to C12 as stated: after two connect events of the same
peer on an empty table of capacity four, the table holds two records with the
peer's address; the second connect event found a record of the peer and still
raised `numSessions` from one to two. -/
theorem blePeripheralConnectHandler_duplicates :
    find (blePeripheralConnectHandler (sampleDecls 4) emptyManager sampleDevice) sampleDevice = SessionRef.slot 0 ∧
    numSessions (blePeripheralConnectHandler (sampleDecls 4) emptyManager sampleDevice) = 1 ∧
    numSessions (blePeripheralConnectHandler (sampleDecls 4) (blePeripheralConnectHandler (sampleDecls 4) emptyManager sampleDevice) sampleDevice) = 2 ∧
    (blePeripheralConnectHandler (sampleDecls 4) (blePeripheralConnectHandler (sampleDecls 4) emptyManager sampleDevice) sampleDevice).sessions.map
      (fun s => s.bleAddress) = [sampleDevice.address, sampleDevice.address] := by
  decide

/-! ## Lemmas: what the teardown leaves untouched -/

theorem deref_eq_derefIn (m : NearbySessionManager) (r : SessionRef) :
    deref m r = derefIn (recordsOf m) r := by
  cases r <;> rfl

theorem recordsOf_setSessionState (m : NearbySessionManager) (r : SessionRef)
    (v : SessionState) : recordsOf (setSessionState m r v) = setStateIn (recordsOf m) r v := by
  cases r <;> rfl

theorem hooksOf_setSessionState (m : NearbySessionManager) (r : SessionRef)
    (v : SessionState) : hooksOf (setSessionState m r v) = hooksOf m := by
  cases r <;> rfl

theorem setStateIn_setStateIn (R : List NearbySession × NearbySession) (r : SessionRef)
    (a b : SessionState) : setStateIn (setStateIn R r a) r b = setStateIn R r b := by
  cases r with
  | empty => rfl
  | slot i =>
    simp only [setStateIn, List.set_set]
    by_cases h : i < R.1.length
    · simp [List.getD, h]
    · have h2 : R.1.length ≤ i := by omega
      simp [List.getD, List.getElem?_eq_none, h2]

theorem set_getD_self (l : List NearbySession) (i : Nat) (d : NearbySession) :
    l.set i (l.getD i d) = l := by
  induction l generalizing i with
  | nil => rfl
  | cons a rest ih =>
    cases i with
    | zero => rfl
    | succ j =>
      have := ih j
      simp only [List.getD, List.get?_cons_succ, List.set_cons_succ] at this ⊢
      rw [this]

theorem setStateIn_self (R : List NearbySession × NearbySession) (r : SessionRef) :
    setStateIn R r (derefIn R r).sessionState = R := by
  cases r with
  | empty => rfl
  | slot i => exact Prod.ext (set_getD_self R.1 i R.2) rfl

theorem touched_refl (r : SessionRef) (m : NearbySessionManager) : touched r m m :=
  ⟨rfl, (derefIn (recordsOf m) r).sessionState, (setStateIn_self _ _).symm⟩

theorem touched_same (r : SessionRef) (m m1 m2 : NearbySessionManager) (h : touched r m m1)
    (hr : recordsOf m2 = recordsOf m1) (hh : hooksOf m2 = hooksOf m1) : touched r m m2 := by
  obtain ⟨h1, v, hv⟩ := h
  exact ⟨hh.trans h1, v, hr.trans hv⟩

theorem touched_setSessionState (r : SessionRef) (m m1 : NearbySessionManager)
    (v : SessionState) (h : touched r m m1) : touched r m (setSessionState m1 r v) := by
  obtain ⟨h1, a, ha⟩ := h
  refine ⟨(hooksOf_setSessionState m1 r v).trans h1, v, ?_⟩
  rw [recordsOf_setSessionState, ha, setStateIn_setStateIn]

theorem touched_stopSwitch (env : Env) (r : SessionRef) (status : Bool)
    (m m1 : NearbySessionManager) (h : touched r m m1) :
    touched r m (stopSwitch env r status m1).2 := by
  have hstop : touched r m (stop env m1).2 := touched_same _ _ _ _ h rfl rfl
  have hdeinit : touched r m (deInit env (stop env m1).2).2 :=
    touched_same _ _ _ _ h rfl rfl
  cases hs : (deref m1 r).sessionState with
  | Started =>
    by_cases hd : isDone (env.stop m1.calls.stop) = true
    · simpa [stopSwitch, hs, hd] using touched_setSessionState _ _ _ _ hstop
    · simpa [stopSwitch, hs, hd] using hstop
  | notStarted =>
    by_cases hd : isDone (env.deInit m1.calls.deInit) = true
    · simpa [stopSwitch, hs, hd] using touched_setSessionState _ _ _ _ hdeinit
    · simpa [stopSwitch, hs, hd] using hdeinit
  | notCreated => simpa [stopSwitch, hs] using touched_setSessionState _ _ _ _ h
  | other v => simpa [stopSwitch, hs] using touched_setSessionState _ _ _ _ h

theorem touched_stopLoop (env : Env) (r : SessionRef) (t0 : Nat) (m : NearbySessionManager) :
    ∀ (fuel : Nat) (status : Bool) (attempts : Nat) (m1 : NearbySessionManager)
      (p : Bool × NearbySessionManager), touched r m m1 →
      stopLoop env r t0 fuel status attempts m1 = Except.ok p → touched r m p.2 := by
  intro fuel
  induction fuel with
  | zero => intro status attempts m1 p _ h; simp [stopLoop] at h
  | succ n ih =>
    intro status attempts m1 p h hrun
    rw [stopLoop] at hrun
    have hm : touched r m (millis env m1).2 := touched_same _ _ _ _ h rfl rfl
    by_cases hs : (deref m1 r).sessionState = SessionState.notCreated
    · simp only [hs, if_true, Except.ok.injEq] at hrun
      rw [← hrun]; exact h
    · by_cases ht : timeoutMs < elapsed (millis env m1).1 t0
      · simp only [hs, if_false, gt_iff_lt, ht, if_true, Except.ok.injEq] at hrun
        rw [← hrun]; exact hm
      · by_cases ha : 8 < (attempts + 1) % 256
        · simp only [hs, if_false, gt_iff_lt, ht, ha, if_true, Except.ok.injEq] at hrun
          rw [← hrun]; exact hm
        · by_cases hb : (stopSwitch env r status (millis env m1).2).1 = false
          · simp only [hs, if_false, gt_iff_lt, ht, ha, hb, Bool.not_false, if_true,
              Except.ok.injEq] at hrun
            rw [← hrun]; exact touched_stopSwitch _ _ _ _ _ hm
          · simp only [hs, if_false, gt_iff_lt, ht, ha, Bool.not_eq_true', hb] at hrun
            exact ih _ _ _ _ (touched_stopSwitch _ _ _ _ _ hm) hrun

theorem touched_stopEpilogue (env : Env) (r : SessionRef) (bleDev : BLEDevice) (status : Bool)
    (m m1 : NearbySessionManager) (h : touched r m m1) :
    touched r m (stopEpilogue env r bleDev status m1).2 := by
  have hg : touched r m (emit m1 Event.semaphoreGive) := touched_same _ _ _ _ h rfl rfl
  have hr : touched r m (setSessionState (reset env (emit m1 Event.semaphoreGive)).2 r
      SessionState.notCreated) :=
    touched_setSessionState _ _ _ _ (touched_same _ _ _ _ hg rfl rfl)
  cases status <;> simp only [stopEpilogue, notifySessionStopped, Bool.not_false, Bool.not_true,
    if_true, if_false, Bool.false_eq_true]
  · split
    · exact touched_same _ _ _ _ hr rfl rfl
    · exact hr
  · split
    · exact touched_same _ _ _ _ hg rfl rfl
    · exact hg

theorem touched_handleStopSession (env : Env) (fuel : Nat) (m : NearbySessionManager)
    (bleDev : BLEDevice) (p : Bool × NearbySessionManager)
    (h : handleStopSession env fuel m bleDev = Except.ok p) :
    touched (find m bleDev) m p.2 := by
  unfold handleStopSession at h
  by_cases hs : (deref m (find m bleDev)).sessionState = SessionState.notCreated
  · simp only [hs, if_true, Except.ok.injEq] at h
    rw [← h]
    simp only [notifySessionStopped]
    split
    · exact touched_same _ _ _ _ (touched_refl _ _) rfl rfl
    · exact touched_refl _ _
  · simp only [hs, if_false] at h
    cases hloop : stopLoop env (find m bleDev) (millis env m).1 fuel true 0
        (emit (millis env m).2 Event.semaphoreTake) with
    | error f => simp [hloop] at h
    | ok q =>
      simp only [hloop, Except.ok.injEq] at h
      rw [← h]
      exact touched_stopEpilogue _ _ _ _ _ _
        (touched_stopLoop env _ _ m _ _ _ (emit (millis env m).2 Event.semaphoreTake) _
          (touched_same _ _ _ _ (touched_refl _ m) rfl rfl) hloop)

theorem teardownTable_no_disconnect (s0 : SessionState) (late1 late2 stopOk deInitOk : Bool)
    (d : BLEDevice) :
    Event.clientDisconnected d ∉ (teardownTable s0 late1 late2 stopOk deInitOk).2 := by
  cases s0 <;> cases late1 <;> cases late2 <;> cases stopOk <;> cases deInitOk <;>
    simp [teardownTable]

theorem eraseP_set_nodup (l : List NearbySession) (i : Nat) (s d : NearbySession)
    (hnd : (l.map (fun x => x.sessionID)).Nodup) (hi : i < l.length)
    (hid : s.sessionID = (l.getD i d).sessionID) :
    (l.set i s).eraseP (fun x => x.sessionID == s.sessionID) = l.eraseIdx i := by
  induction l generalizing i with
  | nil => simp at hi
  | cons a rest ih =>
    simp only [List.map_cons, List.nodup_cons] at hnd
    cases i with
    | zero => simp
    | succ j =>
      simp only [List.length_cons, Nat.add_lt_add_iff_right] at hi
      have hid2 : s.sessionID = (rest.getD j d).sessionID := by
        simpa [List.getD] using hid
      have hne : ¬ ((a.sessionID == s.sessionID) = true) := by
        intro h
        apply hnd.1
        have hmem : rest.getD j d ∈ rest := by
          simp [List.getD, List.getElem?_eq_getElem hi]
        rw [beq_iff_eq] at h
        rw [h, hid2]
        exact List.mem_map_of_mem _ hmem
      have hf : (a.sessionID == s.sessionID) = false := by simpa using hne
      simp only [List.set_cons_succ, List.eraseIdx_cons_succ, List.eraseP_cons, hf, cond_false,
        ih j hnd.2 hi hid2]

/-! ## Disconnect handling -/

/-- C13, as the code orders it: on every disconnect event the teardown by
`handleStopSession` comes first (with its session-stopped hook call, when
registered), then the disconnect hook call (when registered), and only then
`deleteSession`. When the disconnect hook has returned, the table still has
as many records as on entry and the peer resolves to the same record; the
record is removed after that, so that on return of
`blePeripheralDisconnectHandler` (session identifiers being pairwise
different) the table is the table on entry without the peer's record. -/
theorem blePeripheralDisconnectHandler_order (env : Env) (fuel : Nat)
    (m : NearbySessionManager) (central : BLEDevice) (hf : 3 ≤ fuel) :
    ∃ status m1 evs,
      handleStopSession env fuel m central = Except.ok (status, m1) ∧
      disconnectNotified env fuel m central = Except.ok (notifyDisconnected m1 central) ∧
      blePeripheralDisconnectHandler env fuel m central =
        Except.ok (deleteSession (notifyDisconnected m1 central)
          (deref m (find m central)).sessionID) ∧
      (notifyDisconnected m1 central).trace = m.trace ++ evs ++
        (if m.sessionStoppedHandler then [Event.sessionStopped central] else []) ++
        (if m.clientDisconnectionHandler then [Event.clientDisconnected central] else []) ∧
      (∀ d, Event.sessionStopped d ∉ evs ∧ Event.clientDisconnected d ∉ evs) ∧
      numSessions (notifyDisconnected m1 central) = numSessions m ∧
      find (notifyDisconnected m1 central) central = find m central ∧
      (∀ i, find m central = SessionRef.slot i →
        (m.sessions.map (fun s => s.sessionID)).Nodup →
        (deleteSession (notifyDisconnected m1 central)
          (deref m (find m central)).sessionID).sessions = m.sessions.eraseIdx i) := by
  obtain ⟨p, hrun, _, htrace, _, hfind⟩ := handleStopSession_outcome env fuel m central hf
  obtain ⟨hhooks, v, hrec⟩ := touched_handleStopSession env fuel m central p hrun
  have hdis : p.2.clientDisconnectionHandler = m.clientDisconnectionHandler := by
    have := congrArg (fun h => h.2.1) hhooks
    simpa [hooksOf] using this
  have hsess2 : (notifyDisconnected p.2 central).sessions = p.2.sessions := by
    unfold notifyDisconnected; split <;> rfl
  have hempty2 : (notifyDisconnected p.2 central).emptySession = p.2.emptySession := by
    unfold notifyDisconnected; split <;> rfl
  have hfind2 : find (notifyDisconnected p.2 central) central = find m central := by
    rw [← hfind]; simp only [find, hsess2]
  have hrec2 : recordsOf (notifyDisconnected p.2 central)
      = setStateIn (recordsOf m) (find m central) v := by
    rw [← hrec]; simp only [recordsOf, hsess2, hempty2]
  have hid : (deref (notifyDisconnected p.2 central)
      (find (notifyDisconnected p.2 central) central)).sessionID
      = (deref m (find m central)).sessionID := by
    rw [hfind2, deref_eq_derefIn, deref_eq_derefIn, hrec2]
    cases hr : find m central with
    | empty => rfl
    | slot i =>
      have hv := validRef_find m central
      rw [hr] at hv
      simp only [validRef] at hv
      simp [setStateIn, derefIn, recordsOf, List.getD, hv]
  refine ⟨p.1, p.2, (teardownOutcome env m central).2, hrun, ?_, ?_, ?_, ?_, ?_, hfind2, ?_⟩
  · simp [disconnectNotified, hrun]
  · simp only [blePeripheralDisconnectHandler, disconnectNotified, hrun, hid]
  · simp only [notifyDisconnected, hdis]
    split <;> simp [htrace]
  · exact fun d => ⟨teardownTable_no_hook _ _ _ _ _ d, teardownTable_no_disconnect _ _ _ _ _ d⟩
  · have hlen := congrArg (fun R => R.1.length) hrec2
    cases hr : find m central <;> simp_all [numSessions, recordsOf, setStateIn]
  · intro i hi hnd
    have hv := validRef_find m central
    rw [hi] at hv
    simp only [validRef] at hv
    have hs1 := congrArg (fun R => R.1) hrec2
    simp only [recordsOf, hi, setStateIn] at hs1
    simp only [deleteSession, hs1, hi, deref]
    exact eraseP_set_nodup m.sessions i
      { m.sessions.getD i m.emptySession with sessionState := v } m.emptySession hnd hv rfl

/-- Witness for C13: the disconnect of the one registered peer. -/
theorem blePeripheralDisconnectHandler_order_witness :
    3 ≤ 3 ∧
    ∃ status m1 evs,
      handleStopSession (sampleEnv Status.SUCCESS) 3 connectedManager sampleDevice = Except.ok (status, m1) ∧
      disconnectNotified (sampleEnv Status.SUCCESS) 3 connectedManager sampleDevice
        = Except.ok (notifyDisconnected m1 sampleDevice) ∧
      blePeripheralDisconnectHandler (sampleEnv Status.SUCCESS) 3 connectedManager sampleDevice =
        Except.ok (deleteSession (notifyDisconnected m1 sampleDevice)
          (deref connectedManager (find connectedManager sampleDevice)).sessionID) ∧
      (notifyDisconnected m1 sampleDevice).trace = connectedManager.trace ++ evs ++
        (if connectedManager.sessionStoppedHandler then [Event.sessionStopped sampleDevice]
          else []) ++
        (if connectedManager.clientDisconnectionHandler
          then [Event.clientDisconnected sampleDevice] else []) ∧
      (∀ d, Event.sessionStopped d ∉ evs ∧ Event.clientDisconnected d ∉ evs) ∧
      numSessions (notifyDisconnected m1 sampleDevice) = numSessions connectedManager ∧
      find (notifyDisconnected m1 sampleDevice) sampleDevice
        = find connectedManager sampleDevice ∧
      (∀ i, find connectedManager sampleDevice = SessionRef.slot i →
        (connectedManager.sessions.map (fun s => s.sessionID)).Nodup →
        (deleteSession (notifyDisconnected m1 sampleDevice)
          (deref connectedManager (find connectedManager sampleDevice)).sessionID).sessions
            = connectedManager.sessions.eraseIdx i) :=
  ⟨by decide, blePeripheralDisconnectHandler_order (sampleEnv Status.SUCCESS) 3 connectedManager sampleDevice
    (by decide)⟩

/-- Counterexample to C13 as stated: when the disconnect hook has returned
(it is the last event so far), the peer's record has not been removed: the
table still holds one record and the peer still resolves to slot 0. The
record is gone only when `blePeripheralDisconnectHandler` returns. -/
theorem disconnectNotified_record_still_registered :
    ∃ m2 m3, disconnectNotified (sampleEnv Status.SUCCESS) 3 connectedManager sampleDevice = Except.ok m2 ∧
      m2.trace.getLast? = some (Event.clientDisconnected sampleDevice) ∧
      numSessions m2 = 1 ∧ find m2 sampleDevice = SessionRef.slot 0 ∧
      blePeripheralDisconnectHandler (sampleEnv Status.SUCCESS) 3 connectedManager sampleDevice = Except.ok m3 ∧
      numSessions m3 = 0 ∧ m3.trace = m2.trace :=
  ⟨_, _, rfl, by decide, by decide, by decide, rfl, by decide, by decide⟩

/-! ## Command dispatch: the start message on its other paths -/

@[simp] theorem trace_startIOS (env : Env) (r : SessionRef) (data : Nat → Nat)
    (m : NearbySessionManager) :
    (startIOS env r data m).2.trace = m.trace ++ [Event.startIOS] := by
  cases r <;> rfl

@[simp] theorem fst_startIOS (env : Env) (r : SessionRef) (data : Nat → Nat)
    (m : NearbySessionManager) :
    (startIOS env r data m).1 = (env.startIOS m.calls.startIOS (deref m r) data).1 := rfl

/-- C14, as the code behaves on the iOS path: for a record whose
`deviceType` is `iOS`, `handleTLV` on a `kMsg_ConfigureAndStart` message
whose `startIOS` answers a status other than `SUCCESS` appends the start call
and nothing else: no `kRsp_UwbDidStart` response and no other write. -/
theorem handleTLV_ConfigureAndStart_iOS_failure (P : MsgIds) (env : Env) (fuel : Nat)
    (m : NearbySessionManager) (bleDev : BLEDevice) (data : Nat → Nat)
    (hop : data 0 = P.kMsg_ConfigureAndStart)
    (hdev : (deref m (find m bleDev)).deviceType = DeviceType.iOS)
    (hfail : (env.startIOS m.calls.startIOS (startArg m bleDev) data).1 ≠ Status.SUCCESS) :
    ∃ m', handleTLV P env fuel m bleDev (some data) = Except.ok m' ∧
      m'.trace = m.trace ++ [Event.startIOS] := by
  have hv := validRef_find m bleDev
  have hrec : deref (setSessionState m (find m bleDev) SessionState.notStarted) (find m bleDev)
      = startArg m bleDev := deref_setSessionState m (find m bleDev) SessionState.notStarted hv
  have hdev' : (startArg m bleDev).deviceType = DeviceType.iOS := hdev
  refine ⟨_, by simp only [handleTLV, hop, if_true]; rfl, ?_⟩
  simp only [caseConfigureAndStart, hrec, hdev', reduceCtorEq, if_false, if_true, fst_startIOS,
    calls_setSessionState, hfail]
  simp

/-- Witness for C14: an `iOS` record and a start that answers `FAILED`. -/
theorem handleTLV_ConfigureAndStart_iOS_failure_witness :
    sampleData 0x0B 0 = sampleIds.kMsg_ConfigureAndStart ∧
    (deref (sampleManager SessionState.notCreated DeviceType.iOS) (find (sampleManager SessionState.notCreated DeviceType.iOS) sampleDevice)).deviceType = DeviceType.iOS ∧
    ((sampleEnv Status.FAILED).startIOS (sampleManager SessionState.notCreated DeviceType.iOS).calls.startIOS (startArg (sampleManager SessionState.notCreated DeviceType.iOS) sampleDevice) (sampleData 0x0B)).1
      ≠ Status.SUCCESS ∧
    ∃ m', handleTLV sampleIds (sampleEnv Status.FAILED) 3 (sampleManager SessionState.notCreated DeviceType.iOS) sampleDevice (some (sampleData 0x0B))
        = Except.ok m' ∧
      m'.trace = (sampleManager SessionState.notCreated DeviceType.iOS).trace ++ [Event.startIOS] :=
  ⟨rfl, rfl, by decide, handleTLV_ConfigureAndStart_iOS_failure sampleIds (sampleEnv Status.FAILED) 3 (sampleManager SessionState.notCreated DeviceType.iOS)
    sampleDevice (sampleData 0x0B) rfl rfl (by decide)⟩

/-- Counterexample to C14 as stated: with a start that answers `FAILED`, the
`iOS` path writes no `kRsp_UwbDidStart` response (the only event is the start
call), and the `Android` path does write one. -/
theorem handleTLV_ConfigureAndStart_failure_paths :
    (∃ m', handleTLV sampleIds (sampleEnv Status.FAILED) 3 (sampleManager SessionState.notCreated DeviceType.iOS) sampleDevice (some (sampleData 0x0B))
        = Except.ok m' ∧ m'.trace = [Event.startIOS]) ∧
    (∃ m', handleTLV sampleIds (sampleEnv Status.FAILED) 3 (sampleManager SessionState.notCreated DeviceType.Android) sampleDevice (some (sampleData 0x0B))
        = Except.ok m' ∧
      m'.trace = [Event.startAndroid,
        Event.writeValue Channel.txCharacteristic [sampleIds.kRsp_UwbDidStart] 1]) :=
  ⟨⟨_, rfl, by decide⟩, ⟨_, rfl, by decide⟩⟩

/-- C15: for a record whose `deviceType` is neither `iOS` nor `Android`,
`handleTLV` on a `kMsg_ConfigureAndStart` message calls no platform start (no
event is appended, no call counter moves), writes nothing to either channel,
and still leaves the record in state `notStarted`. -/
theorem handleTLV_ConfigureAndStart_unknown_platform (P : MsgIds) (env : Env) (fuel : Nat)
    (m : NearbySessionManager) (bleDev : BLEDevice) (data : Nat → Nat)
    (hop : data 0 = P.kMsg_ConfigureAndStart)
    (hnotA : (deref m (find m bleDev)).deviceType ≠ DeviceType.Android)
    (hnotI : (deref m (find m bleDev)).deviceType ≠ DeviceType.iOS) :
    ∃ m', handleTLV P env fuel m bleDev (some data) = Except.ok m' ∧
      m'.trace = m.trace ∧ m'.calls = m.calls ∧
      (deref m' (find m bleDev)).sessionState = SessionState.notStarted := by
  have hv := validRef_find m bleDev
  have hrec : deref (setSessionState m (find m bleDev) SessionState.notStarted) (find m bleDev)
      = startArg m bleDev := deref_setSessionState m (find m bleDev) SessionState.notStarted hv
  have hA : (startArg m bleDev).deviceType ≠ DeviceType.Android := hnotA
  have hI : (startArg m bleDev).deviceType ≠ DeviceType.iOS := hnotI
  refine ⟨setSessionState m (find m bleDev) SessionState.notStarted, ?_, ?_, ?_, ?_⟩
  · simp only [handleTLV, hop, if_true, caseConfigureAndStart, hrec, hA, hI, if_false]
  · simp
  · simp
  · exact sessionState_setSessionState _ _ _ hv

/-- Witness for C15: a record of device type `other 5`. -/
theorem handleTLV_ConfigureAndStart_unknown_platform_witness :
    sampleData 0x0B 0 = sampleIds.kMsg_ConfigureAndStart ∧
    (deref (sampleManager SessionState.notCreated (DeviceType.other 5)) (find (sampleManager SessionState.notCreated (DeviceType.other 5)) sampleDevice)).deviceType ≠ DeviceType.Android ∧
    (deref (sampleManager SessionState.notCreated (DeviceType.other 5)) (find (sampleManager SessionState.notCreated (DeviceType.other 5)) sampleDevice)).deviceType ≠ DeviceType.iOS ∧
    ∃ m', handleTLV sampleIds (sampleEnv Status.FAILED) 3 (sampleManager SessionState.notCreated (DeviceType.other 5)) sampleDevice (some (sampleData 0x0B))
        = Except.ok m' ∧
      m'.trace = (sampleManager SessionState.notCreated (DeviceType.other 5)).trace ∧ m'.calls = (sampleManager SessionState.notCreated (DeviceType.other 5)).calls ∧
      (deref m' (find (sampleManager SessionState.notCreated (DeviceType.other 5)) sampleDevice)).sessionState = SessionState.notStarted :=
  ⟨rfl, by decide, by decide, handleTLV_ConfigureAndStart_unknown_platform sampleIds (sampleEnv Status.FAILED) 3
    (sampleManager SessionState.notCreated (DeviceType.other 5)) sampleDevice (sampleData 0x0B) rfl (by decide) (by decide)⟩

/-! ## Teardown: semaphore, unrecognised state, timeout, bounds -/

theorem teardownTable_bracket (s0 : SessionState) (late1 late2 stopOk deInitOk : Bool)
    (hs : s0 ≠ SessionState.notCreated) :
    (teardownTable s0 late1 late2 stopOk deInitOk).2 =
      [Event.millis, Event.semaphoreTake] ++
        heldEvents (teardownTable s0 late1 late2 stopOk deInitOk).2 ++ [Event.semaphoreGive] ++
        releasedEvents (teardownTable s0 late1 late2 stopOk deInitOk).2 ∧
    (∀ e ∈ heldEvents (teardownTable s0 late1 late2 stopOk deInitOk).2,
      e = Event.millis ∨ e = Event.stop ∨ e = Event.deInit) ∧
    (∀ e ∈ releasedEvents (teardownTable s0 late1 late2 stopOk deInitOk).2,
      e = Event.reset) := by
  cases s0 with
  | notCreated => exact absurd rfl hs
  | notStarted =>
    cases late1 <;> cases late2 <;> cases stopOk <;> cases deInitOk <;>
      simp only [teardownTable] <;> decide
  | Started =>
    cases late1 <;> cases late2 <;> cases stopOk <;> cases deInitOk <;>
      simp only [teardownTable] <;> decide
  | other v => simp only [teardownTable]; decide

/-- C16: in a run of `handleStopSession` that does not short-circuit, the
appended history is the entry clock reading, one semaphore take, then clock
readings and `stop` / `deInit` calls only, then one semaphore give, then at
most a `reset` and the hook call. So the semaphore is taken once and given
once on every exit path of the loop, every `stop` and `deInit` lies between
take and give, and `reset` lies after the give. -/
theorem handleStopSession_semaphore_bracket (env : Env) (fuel : Nat)
    (m : NearbySessionManager) (bleDev : BLEDevice) (hf : 3 ≤ fuel)
    (hs : (deref m (find m bleDev)).sessionState ≠ SessionState.notCreated) :
    ∃ status m' held released,
      handleStopSession env fuel m bleDev = Except.ok (status, m') ∧
      m'.trace = m.trace ++ [Event.millis, Event.semaphoreTake] ++ held ++
        [Event.semaphoreGive] ++ released ∧
      (∀ e ∈ held, e = Event.millis ∨ e = Event.stop ∨ e = Event.deInit) ∧
      (∀ e ∈ released, e = Event.reset ∨ e = Event.sessionStopped bleDev) := by
  obtain ⟨p, hrun, _, htrace, _, _⟩ := handleStopSession_outcome env fuel m bleDev hf
  obtain ⟨hsplit, hheld, hrel⟩ := teardownTable_bracket _ (lateAt env m 1) (lateAt env m 2)
    (isDone (env.stop m.calls.stop)) (isDone (env.deInit m.calls.deInit)) hs
  refine ⟨p.1, p.2, heldEvents (teardownOutcome env m bleDev).2,
    releasedEvents (teardownOutcome env m bleDev).2 ++
      (if m.sessionStoppedHandler then [Event.sessionStopped bleDev] else []),
    hrun, ?_, hheld, ?_⟩
  · rw [htrace]
    conv_lhs => rw [teardownOutcome, hsplit]
    simp only [teardownOutcome, List.append_assoc]
  · intro e he
    rcases List.mem_append.mp he with h | h
    · exact Or.inl (hrel e h)
    · split at h
      · exact Or.inr (by simpa using h)
      · simp at h

/-- Witness for C16: a successful teardown from `Started`. -/
theorem handleStopSession_semaphore_bracket_witness :
    3 ≤ 3 ∧
    (deref (sampleManager SessionState.Started DeviceType.iOS) (find (sampleManager SessionState.Started DeviceType.iOS) sampleDevice)).sessionState ≠ SessionState.notCreated ∧
    ∃ status m' held released,
      handleStopSession (sampleEnv Status.SUCCESS) 3 (sampleManager SessionState.Started DeviceType.iOS) sampleDevice = Except.ok (status, m') ∧
      m'.trace = (sampleManager SessionState.Started DeviceType.iOS).trace ++ [Event.millis, Event.semaphoreTake] ++ held ++
        [Event.semaphoreGive] ++ released ∧
      (∀ e ∈ held, e = Event.millis ∨ e = Event.stop ∨ e = Event.deInit) ∧
      (∀ e ∈ released, e = Event.reset ∨ e = Event.sessionStopped sampleDevice) :=
  ⟨by decide, by decide,
    handleStopSession_semaphore_bracket (sampleEnv Status.SUCCESS) 3 (sampleManager SessionState.Started DeviceType.iOS) sampleDevice (by decide) (by decide)⟩

/-- C17: entered with a state that is none of `notCreated`, `notStarted`,
`Started`, and with the first timeout check not firing, `handleStopSession`
makes no `stop` and no `deInit` call, enters the loop body once (leaving the
loop through `if (!status) break`), returns `false`, performs the `reset`
recovery and leaves the record `notCreated`. -/
theorem handleStopSession_unrecognised_state (env : Env) (fuel : Nat)
    (m : NearbySessionManager) (bleDev : BLEDevice) (v : Nat) (hf : 3 ≤ fuel)
    (hs : (deref m (find m bleDev)).sessionState = SessionState.other v)
    (h1 : elapsed (env.millis (m.calls.millis + 1) % 2 ^ 32) (env.millis m.calls.millis % 2 ^ 32)
      ≤ timeoutMs) :
    ∃ m', handleStopSession env fuel m bleDev = Except.ok (false, m') ∧
      m'.trace = m.trace ++ [Event.millis, Event.semaphoreTake, Event.millis,
          Event.semaphoreGive, Event.reset] ++
        (if m.sessionStoppedHandler then [Event.sessionStopped bleDev] else []) ∧
      (deref m' (find m bleDev)).sessionState = SessionState.notCreated ∧
      ∃ m3, stopLoopTraced env (find m bleDev) (millis env m).1 fuel true 0 0
          (emit (millis env m).2 Event.semaphoreTake)
        = Except.ok (LoopExit.failedTransition, 1, false, m3) := by
  obtain ⟨p, hrun, hstatus, htrace, hstate, _⟩ := handleStopSession_outcome env fuel m bleDev hf
  have hp1 : p.1 = false := by rw [hstatus]; simp [teardownOutcome, hs, teardownTable]
  refine ⟨p.2, ?_, ?_, hstate, ?_⟩
  · rw [hrun, ← hp1]
  · rw [htrace]; simp [teardownOutcome, hs, teardownTable]
  · obtain ⟨n, rfl⟩ : ∃ n, fuel = n + 1 := ⟨fuel - 1, by omega⟩
    have ht : ¬ timeoutMs < elapsed (millis env (emit (millis env m).2 Event.semaphoreTake)).1
        (millis env m).1 := by
      have : (millis env (emit (millis env m).2 Event.semaphoreTake)).1
          = env.millis (m.calls.millis + 1) % 2 ^ 32 := rfl
      rw [this, fst_millis]; omega
    refine ⟨setSessionState (millis env (emit (millis env m).2 Event.semaphoreTake)).2
      (find m bleDev) SessionState.notCreated, ?_⟩
    rw [stopLoopTraced]
    simp [hs, ht, stopSwitch]

/-- Witness for C17: a record in state `other 7` and a clock that stands
still. -/
theorem handleStopSession_unrecognised_state_witness :
    3 ≤ 3 ∧
    (deref (sampleManager (SessionState.other 7) DeviceType.iOS) (find (sampleManager (SessionState.other 7) DeviceType.iOS) sampleDevice)).sessionState = SessionState.other 7 ∧
    elapsed ((sampleEnv Status.SUCCESS).millis ((sampleManager (SessionState.other 7) DeviceType.iOS).calls.millis + 1) % 2 ^ 32) ((sampleEnv Status.SUCCESS).millis (sampleManager (SessionState.other 7) DeviceType.iOS).calls.millis % 2 ^ 32)
      ≤ timeoutMs ∧
    ∃ m', handleStopSession (sampleEnv Status.SUCCESS) 3 (sampleManager (SessionState.other 7) DeviceType.iOS) sampleDevice = Except.ok (false, m') ∧
      m'.trace = (sampleManager (SessionState.other 7) DeviceType.iOS).trace ++ [Event.millis, Event.semaphoreTake, Event.millis,
          Event.semaphoreGive, Event.reset] ++
        (if (sampleManager (SessionState.other 7) DeviceType.iOS).sessionStoppedHandler then [Event.sessionStopped sampleDevice] else []) ∧
      (deref m' (find (sampleManager (SessionState.other 7) DeviceType.iOS) sampleDevice)).sessionState = SessionState.notCreated ∧
      ∃ m3, stopLoopTraced (sampleEnv Status.SUCCESS) (find (sampleManager (SessionState.other 7) DeviceType.iOS) sampleDevice) (millis (sampleEnv Status.SUCCESS) (sampleManager (SessionState.other 7) DeviceType.iOS)).1 3 true 0 0
          (emit (millis (sampleEnv Status.SUCCESS) (sampleManager (SessionState.other 7) DeviceType.iOS)).2 Event.semaphoreTake)
        = Except.ok (LoopExit.failedTransition, 1, false, m3) :=
  ⟨by decide, rfl, by decide,
    handleStopSession_unrecognised_state (sampleEnv Status.SUCCESS) 3 (sampleManager (SessionState.other 7) DeviceType.iOS) sampleDevice 7 (by decide) rfl
      (by decide)⟩

/-- C18: at a loop check of `handleStopSession` (the loop condition holding),
with `elapsed` the 32-bit difference between the reading just taken and `t0`:
if `elapsed > 2000` the loop is left with `false`, the clock reading being the
only call made (no `stop`, no `deInit`); if `elapsed ≤ 2000` the timeout check
does not abort and the loop goes on to the attempt check and the `switch`.
`elapsed now t0` is `(now - t0) mod 2^32` on 32-bit readings, also when the
counter has wrapped around (`now < t0`); every reading is 32-bit, and the
loop is run with the reading taken on entry as `t0`. -/
theorem stopLoop_timeout_check (env : Env) (r : SessionRef) (t0 fuel : Nat) (status : Bool)
    (attempts : Nat) (m : NearbySessionManager)
    (hs : (deref m r).sessionState ≠ SessionState.notCreated) :
    (timeoutMs < elapsed (millis env m).1 t0 →
      stopLoop env r t0 (fuel + 1) status attempts m = Except.ok (false, (millis env m).2) ∧
      (millis env m).2.trace = m.trace ++ [Event.millis]) ∧
    (elapsed (millis env m).1 t0 ≤ timeoutMs →
      stopLoop env r t0 (fuel + 1) status attempts m =
        if 8 < (attempts + 1) % 256 then Except.ok (false, (millis env m).2)
        else if (stopSwitch env r status (millis env m).2).1 = false then
          Except.ok (stopSwitch env r status (millis env m).2)
        else stopLoop env r t0 fuel (stopSwitch env r status (millis env m).2).1
          ((attempts + 1) % 256) (stopSwitch env r status (millis env m).2).2) ∧
    (∀ now t : Nat, now < 2 ^ 32 → t < 2 ^ 32 →
      ((elapsed now t : Nat) : Int) = ((now : Int) - (t : Int)) % 2 ^ 32) ∧
    (millis env m).1 < 2 ^ 32 ∧
    (∀ (bleDev : BLEDevice) (m0 : NearbySessionManager),
      (deref m0 (find m0 bleDev)).sessionState ≠ SessionState.notCreated →
      handleStopSession env fuel m0 bleDev =
        match stopLoop env (find m0 bleDev) (millis env m0).1 fuel true 0
            (emit (millis env m0).2 Event.semaphoreTake) with
        | Except.error f => Except.error f
        | Except.ok q => Except.ok (stopEpilogue env (find m0 bleDev) bleDev q.1 q.2)) := by
  refine ⟨?_, ?_, ?_, ?_, ?_⟩
  · intro ht
    refine ⟨?_, rfl⟩
    rw [stopLoop]
    simp [hs, ht]
  · intro ht
    have ht' : ¬ timeoutMs < elapsed (millis env m).1 t0 := by omega
    rw [stopLoop]
    simp only [hs, if_false, gt_iff_lt, ht', Bool.not_eq_true']
  · intro now t hnow ht
    simp only [elapsed]
    norm_num at hnow ht ⊢
    omega
  · simp only [fst_millis]
    exact Nat.mod_lt _ (by norm_num)
  · intro bleDev m0 h0
    simp only [handleStopSession, h0, if_false]
    cases stopLoop env (find m0 bleDev) (millis env m0).1 fuel true 0
      (emit (millis env m0).2 Event.semaphoreTake) <;> rfl

/-- Witness for C18: a check where the counter has wrapped around since
`t0 = 2^32 - 100`. The reading 2900 gives `elapsed = 3000` and the loop is
left without a radio call; the reading 50 gives `elapsed = 150` and the loop
goes on. -/
theorem stopLoop_timeout_check_witness :
    ((deref (sampleManager SessionState.Started DeviceType.iOS) (SessionRef.slot 0)).sessionState ≠ SessionState.notCreated ∧
      timeoutMs < elapsed (millis (clockEnv Status.SUCCESS 2900 2900) (sampleManager SessionState.Started DeviceType.iOS)).1 (2 ^ 32 - 100) ∧
      stopLoop (clockEnv Status.SUCCESS 2900 2900) (SessionRef.slot 0) (2 ^ 32 - 100) (2 + 1) true 0 (sampleManager SessionState.Started DeviceType.iOS)
        = Except.ok (false, (millis (clockEnv Status.SUCCESS 2900 2900) (sampleManager SessionState.Started DeviceType.iOS)).2) ∧
      (millis (clockEnv Status.SUCCESS 2900 2900) (sampleManager SessionState.Started DeviceType.iOS)).2.trace = (sampleManager SessionState.Started DeviceType.iOS).trace ++ [Event.millis]) ∧
    ((deref (sampleManager SessionState.Started DeviceType.iOS) (SessionRef.slot 0)).sessionState ≠ SessionState.notCreated ∧
      elapsed (millis (clockEnv Status.SUCCESS 50 50) (sampleManager SessionState.Started DeviceType.iOS)).1 (2 ^ 32 - 100) ≤ timeoutMs ∧
      stopLoop (clockEnv Status.SUCCESS 50 50) (SessionRef.slot 0) (2 ^ 32 - 100) (2 + 1) true 0 (sampleManager SessionState.Started DeviceType.iOS) =
        if 8 < (0 + 1) % 256 then Except.ok (false, (millis (clockEnv Status.SUCCESS 50 50) (sampleManager SessionState.Started DeviceType.iOS)).2)
        else if (stopSwitch (clockEnv Status.SUCCESS 50 50) (SessionRef.slot 0) true (millis (clockEnv Status.SUCCESS 50 50) (sampleManager SessionState.Started DeviceType.iOS)).2).1 = false then
          Except.ok (stopSwitch (clockEnv Status.SUCCESS 50 50) (SessionRef.slot 0) true (millis (clockEnv Status.SUCCESS 50 50) (sampleManager SessionState.Started DeviceType.iOS)).2)
        else stopLoop (clockEnv Status.SUCCESS 50 50) (SessionRef.slot 0) (2 ^ 32 - 100) 2 (stopSwitch (clockEnv Status.SUCCESS 50 50) (SessionRef.slot 0) true (millis (clockEnv Status.SUCCESS 50 50) (sampleManager SessionState.Started DeviceType.iOS)).2).1
          ((0 + 1) % 256) (stopSwitch (clockEnv Status.SUCCESS 50 50) (SessionRef.slot 0) true (millis (clockEnv Status.SUCCESS 50 50) (sampleManager SessionState.Started DeviceType.iOS)).2).2) :=
  ⟨⟨by decide, by decide,
      (stopLoop_timeout_check (clockEnv Status.SUCCESS 2900 2900) (SessionRef.slot 0) (2 ^ 32 - 100) 2 true 0 (sampleManager SessionState.Started DeviceType.iOS) (by decide)).1 (by decide)⟩,
    ⟨by decide, by decide,
      (stopLoop_timeout_check (clockEnv Status.SUCCESS 50 50) (SessionRef.slot 0) (2 ^ 32 - 100) 2 true 0 (sampleManager SessionState.Started DeviceType.iOS) (by decide)).2.1
        (by decide)⟩⟩

theorem stopLoopTraced_agrees (env : Env) (r : SessionRef) (t0 : Nat) :
    ∀ (fuel : Nat) (status : Bool) (attempts bodies : Nat) (m : NearbySessionManager),
      (stopLoopTraced env r t0 fuel status attempts bodies m).map (fun x => (x.2.2.1, x.2.2.2))
        = stopLoop env r t0 fuel status attempts m := by
  intro fuel
  induction fuel with
  | zero => intro status attempts bodies m; rfl
  | succ n ih =>
    intro status attempts bodies m
    rw [stopLoopTraced, stopLoop]
    by_cases hs : (deref m r).sessionState = SessionState.notCreated
    · simp [hs, Except.map]
    · by_cases ht : timeoutMs < elapsed (millis env m).1 t0
      · simp [hs, ht, Except.map]
      · by_cases ha : 8 < (attempts + 1) % 256
        · simp [hs, ht, ha, Except.map]
        · by_cases hb : (stopSwitch env r status (millis env m).2).1 = false
          · simp [hs, ht, ha, hb, Except.map]
          · simp only [hs, if_false, gt_iff_lt, ht, ha, Bool.not_eq_true', hb]
            exact ih _ _ _ _

theorem stopLoopTraced_notStarted (env : Env) (r : SessionRef) (t0 fuel : Nat)
    (attempts bodies : Nat) (m : NearbySessionManager) (hv : validRef m r) (ha : attempts < 8)
    (hs : (deref m r).sessionState = SessionState.notStarted) :
    ∃ exit b st m', stopLoopTraced env r t0 (fuel + 2) true attempts bodies m
        = Except.ok (exit, b, st, m') ∧
      exit ≠ LoopExit.attemptLimit ∧ b ≤ bodies + 1 := by
  have h8 : ¬ 8 < (attempts + 1) % 256 := by omega
  rw [stopLoopTraced]
  by_cases ht : timeoutMs < elapsed (millis env m).1 t0
  · exact ⟨LoopExit.timeout, bodies + 1, false, (millis env m).2, by simp [hs, ht],
      by decide, by omega⟩
  · by_cases hd : isDone (env.deInit m.calls.deInit) = true
    · refine ⟨LoopExit.conditionFalse, bodies + 1, true,
        setSessionState (deInit env (stop env (millis env m).2).2).2 r SessionState.notCreated,
        ?_, by decide, by omega⟩
      simp [hs, ht, h8, hd, stopSwitch, stopLoopTraced, sessionState_setSessionState, hv]
    · exact ⟨LoopExit.failedTransition, bodies + 1, false,
        (deInit env (stop env (millis env m).2).2).2, by simp [hs, ht, h8, hd, stopSwitch],
        by decide, by omega⟩

theorem stopLoopTraced_bounds (env : Env) (r : SessionRef) (t0 fuel : Nat)
    (m : NearbySessionManager) (hv : validRef m r) :
    ∃ exit b st m', stopLoopTraced env r t0 (fuel + 3) true 0 0 m = Except.ok (exit, b, st, m') ∧
      exit ≠ LoopExit.attemptLimit ∧ b ≤ 2 := by
  cases hs : (deref m r).sessionState with
  | notCreated =>
    exact ⟨LoopExit.conditionFalse, 0, true, m, by simp [stopLoopTraced, hs], by decide,
      by omega⟩
  | notStarted =>
    obtain ⟨exit, b, st, m', h1, h2, h3⟩ :=
      stopLoopTraced_notStarted env r t0 (fuel + 1) 0 0 m hv (by omega) hs
    exact ⟨exit, b, st, m', h1, h2, by omega⟩
  | other v =>
    rw [stopLoopTraced]
    by_cases ht : timeoutMs < elapsed (millis env m).1 t0
    · exact ⟨LoopExit.timeout, 1, false, (millis env m).2, by simp [hs, ht], by decide,
        by omega⟩
    · exact ⟨LoopExit.failedTransition, 1, false,
        setSessionState (millis env m).2 r SessionState.notCreated,
        by simp [hs, ht, stopSwitch], by decide, by omega⟩
  | Started =>
    rw [stopLoopTraced]
    by_cases ht : timeoutMs < elapsed (millis env m).1 t0
    · exact ⟨LoopExit.timeout, 1, false, (millis env m).2, by simp [hs, ht], by decide,
        by omega⟩
    · by_cases hd : isDone (env.stop m.calls.stop) = true
      · obtain ⟨exit, b, st, m', h1, h2, h3⟩ :=
          stopLoopTraced_notStarted env r t0 fuel 1 1
            (setSessionState (stop env (millis env m).2).2 r SessionState.notStarted)
            (by simpa using hv) (by omega) (by simp [sessionState_setSessionState, hv])
        refine ⟨exit, b, st, m', ?_, h2, by omega⟩
        simp only [hs, ht, hd, stopSwitch, deref_millis, fst_stop, calls_millis]
        simp only [reduceCtorEq, if_false, if_true, Nat.zero_add, Nat.reduceMod, Nat.reduceLT,
          gt_iff_lt, Bool.not_true, Bool.false_eq_true]
        exact h1
      · exact ⟨LoopExit.failedTransition, 1, false, (stop env (millis env m).2).2,
          by simp [hs, ht, hd, stopSwitch], by decide, by omega⟩

theorem teardownTable_counts (s0 : SessionState) (late1 late2 stopOk deInitOk : Bool) :
    (teardownTable s0 late1 late2 stopOk deInitOk).2.count Event.stop ≤ 2 ∧
    (teardownTable s0 late1 late2 stopOk deInitOk).2.count Event.deInit ≤ 1 ∧
    (stopOk = false → (teardownTable s0 late1 late2 stopOk deInitOk).2.count Event.stop ≤ 1) := by
  cases s0 <;> cases late1 <;> cases late2 <;> cases stopOk <;> cases deInitOk <;>
    simp [teardownTable]

/-- C19: for every state on entry, every radio and every clock, the loop of
`handleStopSession` enters its body at most twice and is never left through
the attempt limit `++attempts > 8`; one invocation makes at most two `stop`
calls and at most one `deInit` call, and when its first `stop` call answers a
failure code no further `stop` is made (a `deInit` is in no case repeated). -/
theorem handleStopSession_loop_bounds (env : Env) (fuel : Nat) (m : NearbySessionManager)
    (bleDev : BLEDevice) (hf : 3 ≤ fuel) :
    (∃ exit bodies status m3,
      stopLoopTraced env (find m bleDev) (millis env m).1 fuel true 0 0
          (emit (millis env m).2 Event.semaphoreTake)
        = Except.ok (exit, bodies, status, m3) ∧
      stopLoop env (find m bleDev) (millis env m).1 fuel true 0
          (emit (millis env m).2 Event.semaphoreTake)
        = Except.ok (status, m3) ∧
      exit ≠ LoopExit.attemptLimit ∧ bodies ≤ 2) ∧
    (∃ status m' evs, handleStopSession env fuel m bleDev = Except.ok (status, m') ∧
      m'.trace = m.trace ++ evs ∧
      evs.count Event.stop ≤ 2 ∧ evs.count Event.deInit ≤ 1 ∧
      (isDone (env.stop m.calls.stop) = false → evs.count Event.stop ≤ 1)) := by
  obtain ⟨n, rfl⟩ : ∃ n, fuel = n + 3 := ⟨fuel - 3, by omega⟩
  constructor
  · obtain ⟨exit, b, st, m3, h1, h2, h3⟩ := stopLoopTraced_bounds env (find m bleDev)
      (millis env m).1 n (emit (millis env m).2 Event.semaphoreTake)
      (by simpa using validRef_find m bleDev)
    refine ⟨exit, b, st, m3, h1, ?_, h2, h3⟩
    rw [← stopLoopTraced_agrees env _ _ _ _ _ 0, h1]
    rfl
  · obtain ⟨p, hrun, _, htrace, _, _⟩ := handleStopSession_outcome env (n + 3) m bleDev hf
    obtain ⟨c1, c2, c3⟩ := teardownTable_counts (deref m (find m bleDev)).sessionState
      (lateAt env m 1) (lateAt env m 2) (isDone (env.stop m.calls.stop))
      (isDone (env.deInit m.calls.deInit))
    have hhook : ∀ e, e = Event.stop ∨ e = Event.deInit →
        (if m.sessionStoppedHandler then [Event.sessionStopped bleDev] else []).count e = 0 := by
      intro e he
      rcases he with rfl | rfl <;> cases m.sessionStoppedHandler <;> simp
    refine ⟨p.1, p.2, _, hrun, by rw [htrace, List.append_assoc], ?_, ?_, ?_⟩
    · rw [List.count_append, hhook _ (Or.inl rfl)]; exact c1
    · rw [List.count_append, hhook _ (Or.inr rfl)]; exact c2
    · intro hfail
      rw [List.count_append, hhook _ (Or.inl rfl)]; exact c3 hfail

/-- Witness for C19: a `Started` record and a radio that always fails. -/
theorem handleStopSession_loop_bounds_witness :
    3 ≤ 3 ∧
    (∃ exit bodies status m3,
      stopLoopTraced (sampleEnv Status.FAILED) (find (sampleManager SessionState.Started DeviceType.iOS) sampleDevice) (millis (sampleEnv Status.FAILED) (sampleManager SessionState.Started DeviceType.iOS)).1 3 true 0 0
          (emit (millis (sampleEnv Status.FAILED) (sampleManager SessionState.Started DeviceType.iOS)).2 Event.semaphoreTake)
        = Except.ok (exit, bodies, status, m3) ∧
      stopLoop (sampleEnv Status.FAILED) (find (sampleManager SessionState.Started DeviceType.iOS) sampleDevice) (millis (sampleEnv Status.FAILED) (sampleManager SessionState.Started DeviceType.iOS)).1 3 true 0
          (emit (millis (sampleEnv Status.FAILED) (sampleManager SessionState.Started DeviceType.iOS)).2 Event.semaphoreTake)
        = Except.ok (status, m3) ∧
      exit ≠ LoopExit.attemptLimit ∧ bodies ≤ 2) ∧
    (∃ status m' evs, handleStopSession (sampleEnv Status.FAILED) 3 (sampleManager SessionState.Started DeviceType.iOS) sampleDevice = Except.ok (status, m') ∧
      m'.trace = (sampleManager SessionState.Started DeviceType.iOS).trace ++ evs ∧
      evs.count Event.stop ≤ 2 ∧ evs.count Event.deInit ≤ 1 ∧
      (isDone ((sampleEnv Status.FAILED).stop (sampleManager SessionState.Started DeviceType.iOS).calls.stop) = false → evs.count Event.stop ≤ 1)) :=
  ⟨by decide, handleStopSession_loop_bounds (sampleEnv Status.FAILED) 3 (sampleManager SessionState.Started DeviceType.iOS) sampleDevice (by decide)⟩

/-! ## The shared sentinel -/

theorem findFrom_slot (addr : Nat) (l : List NearbySession) (k i : Nat)
    (h : findFrom addr l k = SessionRef.slot i) :
    k ≤ i ∧ ∃ s, l[i - k]? = some s ∧ s.bleAddress = addr ∧
      ∀ j s', j < i - k → l[j]? = some s' → s'.bleAddress ≠ addr := by
  induction l generalizing k with
  | nil => simp [findFrom] at h
  | cons a rest ih =>
    simp only [findFrom] at h
    by_cases ha : a.bleAddress = addr
    · simp only [ha, if_true, SessionRef.slot.injEq] at h
      subst h
      exact ⟨Nat.le_refl _, a, by simp, ha, fun j s' hj => by omega⟩
    · simp only [ha, if_false] at h
      obtain ⟨hk, s, hs, hsa, hfirst⟩ := ih (k + 1) h
      have hik : i - k = (i - (k + 1)) + 1 := by omega
      refine ⟨by omega, s, by rw [hik]; simpa using hs, hsa, ?_⟩
      intro j s' hj hjs
      cases j with
      | zero => simp at hjs; rw [← hjs]; exact ha
      | succ j' => exact hfirst j' s' (by omega) (by simpa using hjs)

theorem findFrom_empty_iff (addr : Nat) (l : List NearbySession) (k : Nat) :
    findFrom addr l k = SessionRef.empty ↔ ∀ s ∈ l, s.bleAddress ≠ addr := by
  induction l generalizing k with
  | nil => simp [findFrom]
  | cons a rest ih =>
    simp only [findFrom, List.mem_cons, forall_eq_or_imp]
    by_cases ha : a.bleAddress = addr
    · simp [ha]
    · simp [ha, ih (k + 1)]

theorem sentinel_after_ConfigureAndStart (P : MsgIds) (env : Env) (data : Nat → Nat)
    (m : NearbySessionManager) :
    (caseConfigureAndStart P env SessionRef.empty data m).sessions = m.sessions ∧
    (caseConfigureAndStart P env SessionRef.empty data m).emptySession
      = sentinelAfter env m data := by
  by_cases hA : m.emptySession.deviceType = DeviceType.Android
  · have hA' : (deref (setSessionState m SessionRef.empty SessionState.notStarted)
        SessionRef.empty).deviceType = DeviceType.Android := hA
    simp only [caseConfigureAndStart, sentinelAfter, hA, hA', if_true]
    split_ifs <;> exact ⟨rfl, rfl⟩
  · have hA' : ¬ (deref (setSessionState m SessionRef.empty SessionState.notStarted)
        SessionRef.empty).deviceType = DeviceType.Android := hA
    by_cases hI : m.emptySession.deviceType = DeviceType.iOS
    · have hI' : (deref (setSessionState m SessionRef.empty SessionState.notStarted)
          SessionRef.empty).deviceType = DeviceType.iOS := hI
      simp only [caseConfigureAndStart, sentinelAfter, hA, hA', hI, hI', if_true, if_false]
      split_ifs <;> exact ⟨rfl, rfl⟩
    · have hI' : ¬ (deref (setSessionState m SessionRef.empty SessionState.notStarted)
          SessionRef.empty).deviceType = DeviceType.iOS := hI
      simp only [caseConfigureAndStart, sentinelAfter, hA, hA', hI, hI', if_false]
      exact ⟨rfl, rfl⟩

theorem teardownTable_notStarted_prefix (late1 late2 stopOk deInitOk : Bool) :
    ∃ rest, (teardownTable SessionState.notStarted late1 late2 stopOk deInitOk).2 =
        [Event.millis, Event.semaphoreTake, Event.millis] ++ rest ∧
      (late1 = false → ∃ rest', rest = Event.stop :: Event.deInit :: rest') := by
  cases late1 <;> cases late2 <;> cases stopOk <;> cases deInitOk <;>
    simp [teardownTable]

theorem teardownTable_Started_prefix (late1 late2 stopOk deInitOk : Bool) :
    ∃ rest, (teardownTable SessionState.Started late1 late2 stopOk deInitOk).2 =
        [Event.millis, Event.semaphoreTake, Event.millis] ++ rest ∧
      (late1 = false → ∃ rest', rest = Event.stop :: rest' ∧
        (stopOk = true → late2 = false →
          ∃ rest'', rest' = Event.millis :: Event.stop :: Event.deInit :: rest'')) := by
  cases late1 <;> cases late2 <;> cases stopOk <;> cases deInitOk <;>
    simp [teardownTable]

theorem teardownTable_prefix (s0 : SessionState) (late1 late2 stopOk deInitOk : Bool)
    (hs : s0 ≠ SessionState.notCreated) :
    ∃ rest, (teardownTable s0 late1 late2 stopOk deInitOk).2 =
        [Event.millis, Event.semaphoreTake, Event.millis] ++ rest ∧
      (late1 = false →
        (s0 = SessionState.notStarted → ∃ rest', rest = Event.stop :: Event.deInit :: rest') ∧
        (s0 = SessionState.Started → ∃ rest', rest = Event.stop :: rest' ∧
          (stopOk = true → late2 = false →
            ∃ rest'', rest' = Event.millis :: Event.stop :: Event.deInit :: rest''))) := by
  cases s0 with
  | notCreated => exact absurd rfl hs
  | notStarted =>
    obtain ⟨rest, h1, h2⟩ := teardownTable_notStarted_prefix late1 late2 stopOk deInitOk
    exact ⟨rest, h1, fun hl => ⟨fun _ => h2 hl, fun h => by cases h⟩⟩
  | Started =>
    obtain ⟨rest, h1, h2⟩ := teardownTable_Started_prefix late1 late2 stopOk deInitOk
    exact ⟨rest, h1, fun hl => ⟨fun h => (by cases h), fun _ => h2 hl⟩⟩
  | other v =>
    exact ⟨[Event.semaphoreGive, Event.reset], by simp [teardownTable],
      fun _ => ⟨fun h => (by cases h), fun h => (by cases h)⟩⟩

/-- C20, as the code behaves: `find` yields the first record of the table
whose address is the device's, and the one sentinel `emptySession` when no
record has it. Hence `handleTLV` on a `kMsg_ConfigureAndStart` message from a
peer without a record sets the sentinel to `notStarted` and, when the
sentinel's device type is `Android` or `iOS`, runs the platform start on it.
Whenever that leaves the sentinel in a state other than `notCreated`, every
peer without a record resolves to a record that is not `notCreated`, and
`handleStopSession` for such a peer does not short-circuit: it reads the
clock, takes the semaphore and reads the clock again. When that first timeout
check does not fire, it calls `stop` and `deInit` from `notStarted`; from
`Started` it calls `stop`, and then `stop` and `deInit` when this first `stop`
succeeds and the second timeout check does not fire. -/
theorem sentinel_shared_by_absent_peers (P : MsgIds) (env : Env) (fuel : Nat)
    (m : NearbySessionManager) (dev1 dev2 : BLEDevice) (data : Nat → Nat) (hf : 3 ≤ fuel)
    (habs1 : ∀ s ∈ m.sessions, s.bleAddress ≠ dev1.address)
    (habs2 : ∀ s ∈ m.sessions, s.bleAddress ≠ dev2.address)
    (hop : data 0 = P.kMsg_ConfigureAndStart)
    (hlive : (sentinelAfter env m data).sessionState ≠ SessionState.notCreated) :
    (∀ (m0 : NearbySessionManager) (dev : BLEDevice) (i : Nat),
      find m0 dev = SessionRef.slot i →
      ∃ s, m0.sessions[i]? = some s ∧ s.bleAddress = dev.address ∧
        ∀ j s', j < i → m0.sessions[j]? = some s' → s'.bleAddress ≠ dev.address) ∧
    (∀ (m0 : NearbySessionManager) (dev : BLEDevice),
      find m0 dev = SessionRef.empty ↔ ∀ s ∈ m0.sessions, s.bleAddress ≠ dev.address) ∧
    (∀ (m0 : NearbySessionManager), deref m0 SessionRef.empty = m0.emptySession) ∧
    (∀ (m0 : NearbySessionManager), (sentinelArg m0).sessionState = SessionState.notStarted) ∧
    ∃ m1, handleTLV P env fuel m dev1 (some data) = Except.ok m1 ∧
      m1.sessions = m.sessions ∧
      m1.emptySession = sentinelAfter env m data ∧
      find m1 dev2 = SessionRef.empty ∧
      (deref m1 (find m1 dev2)).sessionState ≠ SessionState.notCreated ∧
      ∃ status m2 rest, handleStopSession env fuel m1 dev2 = Except.ok (status, m2) ∧
        m2.trace = m1.trace ++ [Event.millis, Event.semaphoreTake, Event.millis] ++ rest ∧
        (elapsed (env.millis (m1.calls.millis + 1) % 2 ^ 32) (env.millis m1.calls.millis % 2 ^ 32)
            ≤ timeoutMs →
          (m1.emptySession.sessionState = SessionState.notStarted →
            ∃ rest', rest = Event.stop :: Event.deInit :: rest') ∧
          (m1.emptySession.sessionState = SessionState.Started →
            ∃ rest', rest = Event.stop :: rest' ∧
              (isDone (env.stop m1.calls.stop) = true →
                elapsed (env.millis (m1.calls.millis + 2) % 2 ^ 32)
                  (env.millis m1.calls.millis % 2 ^ 32) ≤ timeoutMs →
                ∃ rest'', rest' = Event.millis :: Event.stop :: Event.deInit :: rest''))) := by
  refine ⟨?_, ?_, fun _ => rfl, fun _ => rfl, ?_⟩
  · intro m0 dev i h
    obtain ⟨_, s, hs, hsa, hfirst⟩ := findFrom_slot dev.address m0.sessions 0 i h
    exact ⟨s, by simpa using hs, hsa, fun j s' hj hjs => hfirst j s' (by omega) hjs⟩
  · intro m0 dev
    exact findFrom_empty_iff dev.address m0.sessions 0
  · have hfind1 : find m dev1 = SessionRef.empty :=
      (findFrom_empty_iff dev1.address m.sessions 0).mpr habs1
    obtain ⟨hsess, hsent⟩ := sentinel_after_ConfigureAndStart P env data m
    generalize hm1 : caseConfigureAndStart P env SessionRef.empty data m = m1 at hsess hsent
    have hfind2 : find m1 dev2 = SessionRef.empty := by
      simp only [find, hsess]
      exact (findFrom_empty_iff dev2.address m.sessions 0).mpr habs2
    have hst2 : (deref m1 (find m1 dev2)).sessionState = m1.emptySession.sessionState := by
      rw [hfind2]; rfl
    have hne : (deref m1 (find m1 dev2)).sessionState ≠ SessionState.notCreated := by
      rw [hst2, hsent]; exact hlive
    refine ⟨m1, ?_, hsess, hsent, hfind2, hne, ?_⟩
    · simp only [handleTLV, hop, if_true, hfind1, hm1]
    · obtain ⟨p, hrun, _, htrace, _, _⟩ := handleStopSession_outcome env fuel m1 dev2 hf
      obtain ⟨rest, hrest, hgo⟩ := teardownTable_prefix (deref m1 (find m1 dev2)).sessionState
        (lateAt env m1 1) (lateAt env m1 2) (isDone (env.stop m1.calls.stop))
        (isDone (env.deInit m1.calls.deInit)) hne
      refine ⟨p.1, p.2, rest ++ (if m1.sessionStoppedHandler then [Event.sessionStopped dev2]
        else []), hrun, ?_, ?_⟩
      · rw [htrace, teardownOutcome, hrest]
        simp only [List.append_assoc]
      · intro hin
        have hl1 : lateAt env m1 1 = false := by
          simp only [lateAt, decide_eq_false_iff_not, not_lt]; exact hin
        obtain ⟨hA, hB⟩ := hgo hl1
        rw [hst2] at hA hB
        constructor
        · intro hs
          obtain ⟨rest', hr'⟩ := hA hs
          exact ⟨rest' ++ (if m1.sessionStoppedHandler then [Event.sessionStopped dev2]
            else []), by rw [hr']; rfl⟩
        · intro hs
          obtain ⟨rest', hr', hnext⟩ := hB hs
          refine ⟨rest' ++ (if m1.sessionStoppedHandler then [Event.sessionStopped dev2]
            else []), by rw [hr']; rfl, ?_⟩
          intro hdone hin2
          have hl2 : lateAt env m1 2 = false := by
            simp only [lateAt, decide_eq_false_iff_not, not_lt]; exact hin2
          obtain ⟨rest'', hr''⟩ := hnext hdone hl2
          exact ⟨rest'' ++ (if m1.sessionStoppedHandler then [Event.sessionStopped dev2]
            else []), by rw [hr'']; rfl⟩

/-- Witness for C20: the peer with address 7 has no record, the sentinel has
device type `iOS`, and the platform start succeeds and leaves it `Started`;
the later teardown for that peer runs `stop`, then `stop` and `deInit`. -/
theorem sentinel_shared_by_absent_peers_witness :
    3 ≤ 3 ∧
    (∀ s ∈ iosSentinelManager.sessions, s.bleAddress ≠ absentDevice.address) ∧
    sampleData 0x0B 0 = sampleIds.kMsg_ConfigureAndStart ∧
    (sentinelAfter (startEnv Status.SUCCESS Status.SUCCESS SessionState.Started) iosSentinelManager (sampleData 0x0B)).sessionState
      ≠ SessionState.notCreated ∧
    (∃ m1, handleTLV sampleIds (startEnv Status.SUCCESS Status.SUCCESS SessionState.Started) 3 iosSentinelManager absentDevice (some (sampleData 0x0B)) = Except.ok m1 ∧
      m1.sessions = iosSentinelManager.sessions ∧
      m1.emptySession = sentinelAfter (startEnv Status.SUCCESS Status.SUCCESS SessionState.Started) iosSentinelManager (sampleData 0x0B) ∧
      find m1 absentDevice = SessionRef.empty ∧
      (deref m1 (find m1 absentDevice)).sessionState ≠ SessionState.notCreated ∧
      ∃ status m2 rest, handleStopSession (startEnv Status.SUCCESS Status.SUCCESS SessionState.Started) 3 m1 absentDevice = Except.ok (status, m2) ∧
        m2.trace = m1.trace ++ [Event.millis, Event.semaphoreTake, Event.millis] ++ rest ∧
        (elapsed ((startEnv Status.SUCCESS Status.SUCCESS SessionState.Started).millis (m1.calls.millis + 1) % 2 ^ 32) ((startEnv Status.SUCCESS Status.SUCCESS SessionState.Started).millis m1.calls.millis % 2 ^ 32)
            ≤ timeoutMs →
          (m1.emptySession.sessionState = SessionState.notStarted →
            ∃ rest', rest = Event.stop :: Event.deInit :: rest') ∧
          (m1.emptySession.sessionState = SessionState.Started →
            ∃ rest', rest = Event.stop :: rest' ∧
              (isDone ((startEnv Status.SUCCESS Status.SUCCESS SessionState.Started).stop m1.calls.stop) = true →
                elapsed ((startEnv Status.SUCCESS Status.SUCCESS SessionState.Started).millis (m1.calls.millis + 2) % 2 ^ 32)
                  ((startEnv Status.SUCCESS Status.SUCCESS SessionState.Started).millis m1.calls.millis % 2 ^ 32) ≤ timeoutMs →
                ∃ rest'', rest' = Event.millis :: Event.stop :: Event.deInit :: rest'')))) ∧
    (∃ m1 m2, handleTLV sampleIds (startEnv Status.SUCCESS Status.SUCCESS SessionState.Started) 3 iosSentinelManager absentDevice
        (some (sampleData 0x0B)) = Except.ok m1 ∧
      m1.emptySession.sessionState = SessionState.Started ∧
      handleStopSession (startEnv Status.SUCCESS Status.SUCCESS SessionState.Started) 3 m1 absentDevice = Except.ok (true, m2) ∧
      m2.trace = m1.trace ++ [Event.millis, Event.semaphoreTake, Event.millis, Event.stop,
        Event.millis, Event.stop, Event.deInit, Event.semaphoreGive,
        Event.sessionStopped absentDevice]) :=
  ⟨by decide, by decide, rfl, by decide,
    (sentinel_shared_by_absent_peers sampleIds (startEnv Status.SUCCESS Status.SUCCESS SessionState.Started) 3 iosSentinelManager absentDevice
      absentDevice (sampleData 0x0B) (by decide) (by decide) (by decide) rfl
      (by decide)).2.2.2.2,
    ⟨_, _, rfl, by decide, rfl, by decide⟩⟩

/-- Counterexample to C20 as stated, in the three ways the code departs from
it. (1) The sentinel is `notStarted` and the clock reads 5000 ms past the
entry reading at the first timeout check: `handleStopSession` for the peer
without a record does not short-circuit, yet makes no `stop` and no `deInit`
call. (2) The platform start has left the sentinel `Started` and `stop`
answers `FAILED`: one `stop` is made and no `deInit`. (3) The platform start
has left the sentinel `notCreated`: `handleStopSession` short-circuits. -/
theorem handleStopSession_sentinel_exceptions :
    (∃ m1 m2, handleTLV sampleIds (clockEnv Status.SUCCESS 0 5000) 3 (sampleManager SessionState.notCreated DeviceType.iOS) absentDevice (some (sampleData 0x0B))
        = Except.ok m1 ∧
      find m1 absentDevice = SessionRef.empty ∧
      m1.emptySession.sessionState = SessionState.notStarted ∧
      handleStopSession (clockEnv Status.SUCCESS 0 5000) 3 m1 absentDevice = Except.ok (false, m2) ∧
      m2.trace = m1.trace ++ [Event.millis, Event.semaphoreTake, Event.millis,
        Event.semaphoreGive, Event.reset, Event.sessionStopped absentDevice]) ∧
    (∃ m1 m2, handleTLV sampleIds (startEnv Status.FAILED Status.SUCCESS SessionState.Started) 3 iosSentinelManager absentDevice
        (some (sampleData 0x0B)) = Except.ok m1 ∧
      find m1 absentDevice = SessionRef.empty ∧
      m1.emptySession.sessionState = SessionState.Started ∧
      handleStopSession (startEnv Status.FAILED Status.SUCCESS SessionState.Started) 3 m1 absentDevice = Except.ok (false, m2) ∧
      m2.trace = m1.trace ++ [Event.millis, Event.semaphoreTake, Event.millis, Event.stop,
        Event.semaphoreGive, Event.reset, Event.sessionStopped absentDevice]) ∧
    (∃ m1 m2, handleTLV sampleIds (startEnv Status.SUCCESS Status.FAILED SessionState.notCreated) 3 iosSentinelManager absentDevice
        (some (sampleData 0x0B)) = Except.ok m1 ∧
      find m1 absentDevice = SessionRef.empty ∧
      m1.emptySession.sessionState = SessionState.notCreated ∧
      handleStopSession (startEnv Status.SUCCESS Status.FAILED SessionState.notCreated) 3 m1 absentDevice = Except.ok (true, m2) ∧
      m2.trace = m1.trace ++ [Event.sessionStopped absentDevice]) :=
  ⟨⟨_, _, rfl, by decide, by decide, rfl, by decide⟩,
    ⟨_, _, rfl, by decide, by decide, rfl, by decide⟩,
    ⟨_, _, rfl, by decide, by decide, rfl, by decide⟩⟩

end Uwbapps
